import Mathlib

/-!
# DID provisioning (`pkg/restapi/internal/common/did/common.go`)

A shallow embedding of `CommonDID.CreateDID` and the functions it is built from,
followed by theorems about them.

* Go strings are lists of characters (`Str`); the separators the code uses
  (`:` and `#`) are single characters.
* The key manager, the DID registry and the universal-registrar client are
  collaborators behind interfaces.  Each is a record of response functions; a
  response may depend on every call made so far, so the state that is threaded
  through a run is the list of collaborator calls (`List Call`).
* A Go function returning `(..., error)` becomes a computation in `M`, whose
  outcome is a value, an error, or a runtime panic (index out of range).
-/

namespace DID

/-- Go `string`. -/
abbrev Str := List Char

/-- Go `[]byte`. -/
abbrev Bytes := List Nat

/-! ## Package `strings` (standard library, as documented) -/

namespace strings

/-- `strings.HasPrefix(s, pre)`. -/
def HasPrefix (s pre : Str) : Bool := pre.isPrefixOf s

/-- `strings.Contains(s, substr)`: `substr` occurs at some position of `s`. -/
def Contains : Str → Str → Bool
  | [], substr => substr.isPrefixOf []
  | c :: cs, substr => substr.isPrefixOf (c :: cs) || Contains cs substr

/-- `strings.Split(s, sep)` for a one-character separator: the pieces of `s`
between the occurrences of `sep`; `n` occurrences give `n + 1` pieces. -/
def Split (s : Str) (sep : Char) : List Str :=
  match s with
  | [] => [[]]
  | c :: cs =>
    if c = sep then [] :: Split cs sep
    else
      match Split cs sep with
      | [] => [[c]]
      | piece :: rest => (c :: piece) :: rest

/-- The scan of `strings.ReplaceAll` for a non-empty `old`: `skip` counts the
characters of a matched occurrence that are still to be passed over. -/
def replaceScan (old new : Str) : Nat → Str → Str
  | _, [] => []
  | skip + 1, _ :: cs => replaceScan old new skip cs
  | 0, c :: cs =>
    if old.isPrefixOf (c :: cs) then new ++ replaceScan old new (old.length - 1) cs
    else c :: replaceScan old new 0 cs

/-- `strings.ReplaceAll(s, old, new)`: every non-overlapping occurrence of `old`,
leftmost first, is replaced by `new`; an empty `old` matches before every
character and at the end. -/
def ReplaceAll (s old new : Str) : Str :=
  if old = [] then new ++ s.flatMap (fun c => c :: new)
  else replaceScan old new 0 s

end strings

/-- Constant `splitDidIDLength`. -/
def splitDidIDLength : Nat := 4

/-- `CommonDID.replaceCanonicalDIDWithDomainDID`, as a function of the `domain`
field of the receiver. -/
def replaceCanonicalDIDWithDomainDID (domain : Str) (didID publicKeyID : Str) : Str × Str :=
  if strings.HasPrefix didID "did:trustbloc".toList then
    let split := strings.Split didID ':'
    if split.length = splitDidIDLength then
      match split with
      | [s0, s1, _, s3] =>
        let domainDIDID := s0 ++ ':' :: (s1 ++ ':' :: (domain ++ ':' :: s3))
        (domainDIDID, strings.ReplaceAll publicKeyID didID domainDIDID)
      | _ => (didID, publicKeyID)
    else (didID, publicKeyID)
  else (didID, publicKeyID)

/-! ## Data of the imported packages -/

/-- `kms.KeyType`: the two key types this file uses. -/
inductive KeyType
  | ED25519Type
  | ECDSAP256IEEEP1363
  deriving DecidableEq, Repr

/-- `didmethodoperation.Key`: a key returned by the universal registrar. -/
structure Key where
  ID : Str
  Purposes : List Str
  PrivateKeyBase58 : Str
  deriving DecidableEq, Repr

/-- `didmethodoperation.PublicKey`; `Typ` is the Go field `Type`. -/
structure PublicKey where
  ID : Str := []
  Typ : Str := []
  Value : Str := []
  KeyType : Str := []
  Purposes : List Str := []
  Recovery : Bool := false
  Update : Bool := false
  deriving DecidableEq, Repr

/-- `model.UNIRegistrar`. -/
structure UNIRegistrar where
  DriverURL : Str
  Options : List (Str × Str)
  deriving DecidableEq, Repr

/-- `uniregistrar.CreateDIDOption`. -/
inductive CreateDIDOption
  | WithPublicKey (pk : PublicKey)
  | WithOptions (options : List (Str × Str))
  deriving DecidableEq, Repr

/-- A Go public key value: `ed25519.PublicKey(bytes)` or
`&ecdsa.PublicKey{X, Y, Curve: elliptic.P256()}` (`none` when `X`, `Y` are nil). -/
inductive CryptoPublicKey
  | ed25519 (bytes : Bytes)
  | ecdsaP256 (xy : Option (Nat × Nat))
  deriving DecidableEq, Repr

/-- `jose.JWK`. -/
structure JWK where
  Kty : Str
  Crv : Str
  Key : CryptoPublicKey
  deriving DecidableEq, Repr

/-- `did.VerificationMethod`; `Typ` is the Go field `Type`. -/
structure VerificationMethod where
  ID : Str
  Typ : Str
  Controller : Str
  Value : Bytes
  deriving DecidableEq, Repr

/-- `did.VerificationRelationship`: the two relationships this file uses. -/
inductive VerificationRelationship
  | Authentication
  | AssertionMethod
  deriving DecidableEq, Repr

/-- `did.Verification`. -/
structure Verification where
  VerificationMethod : VerificationMethod
  Relationship : VerificationRelationship
  Embedded : Bool
  deriving DecidableEq, Repr

/-- `did.NewReferencedVerification`. -/
def NewReferencedVerification (vm : VerificationMethod) (r : VerificationRelationship) :
    Verification :=
  { VerificationMethod := vm, Relationship := r, Embedded := false }

/-- `did.Doc`: the fields this file reads or writes. -/
structure Doc where
  ID : Str := []
  Authentication : List Verification := []
  AssertionMethod : List Verification := []
  deriving DecidableEq, Repr

/-- `d.Authentication = append(d.Authentication, v)`. -/
def Doc.appendAuthentication (d : Doc) (v : Verification) : Doc :=
  { d with Authentication := d.Authentication ++ [v] }

/-- `d.AssertionMethod = append(d.AssertionMethod, v)`. -/
def Doc.appendAssertionMethod (d : Doc) (v : Verification) : Doc :=
  { d with AssertionMethod := d.AssertionMethod ++ [v] }

/-- `did.DocResolution`. -/
structure DocResolution where
  DIDDocument : Doc
  deriving DecidableEq, Repr

/-- `vdrapi.DIDMethodOption`, built by `vdrapi.WithOption(name, value)`. -/
inductive DIDMethodOption
  | WithOption (name : Str) (value : Bytes)
  deriving DecidableEq, Repr

/-- Constants and pure functions of the imported packages (`crypto`, `doc`,
`trustbloc`, `base58`, `base64`, `elliptic`, `jose`, `did`).  Their declarations
are outside this file, so they are parameters of the embedding. -/
structure Pkgs where
  /-- `crypto.Ed25519Signature2018` -/
  Ed25519Signature2018 : Str
  /-- `crypto.JSONWebSignature2020` -/
  JSONWebSignature2020 : Str
  /-- `crypto.Ed25519VerificationKey2018` -/
  cryptoEd25519VerificationKey2018 : Str
  /-- `crypto.JwsVerificationKey2020` -/
  cryptoJwsVerificationKey2020 : Str
  /-- `crypto.Ed25519KeyType` -/
  Ed25519KeyType : Str
  /-- `crypto.P256KeyType` -/
  P256KeyType : Str
  /-- `doc.Ed25519VerificationKey2018` -/
  docEd25519VerificationKey2018 : Str
  /-- `doc.JWSVerificationKey2020` -/
  docJWSVerificationKey2020 : Str
  /-- `doc.KeyPurposeAssertionMethod` -/
  KeyPurposeAssertionMethod : Str
  /-- `doc.KeyPurposeAuthentication` -/
  KeyPurposeAuthentication : Str
  /-- `trustbloc.DIDMethod` -/
  DIDMethod : Str
  /-- `trustbloc.RecoveryPublicKeyOpt` -/
  RecoveryPublicKeyOpt : Str
  /-- `trustbloc.UpdatePublicKeyOpt` -/
  UpdatePublicKeyOpt : Str
  /-- `base58.Decode` -/
  base58Decode : Str → Bytes
  /-- `base64.StdEncoding.EncodeToString` -/
  base64Encode : Bytes → Str
  /-- `elliptic.Unmarshal(elliptic.P256(), data)` -/
  ellipticUnmarshalP256 : Bytes → Option (Nat × Nat)
  /-- `jose.JWKFromPublicKey` -/
  JWKFromPublicKey : CryptoPublicKey → Except Str JWK
  /-- `did.NewVerificationMethodFromJWK(id, keyType, controller, jwk)` -/
  NewVerificationMethodFromJWK : Str → Str → Str → JWK → Except Str VerificationMethod

/-- What the code needs of the constants: package `doc` and package `crypto`
name the two verification key types alike, and the names that are told apart
are different and not empty. -/
structure Pkgs.ConstsOK (P : Pkgs) : Prop where
  ed25519VK : P.docEd25519VerificationKey2018 = P.cryptoEd25519VerificationKey2018
  jwsVK : P.docJWSVerificationKey2020 = P.cryptoJwsVerificationKey2020
  vk_ne : P.cryptoEd25519VerificationKey2018 ≠ P.cryptoJwsVerificationKey2020
  ed25519VK_ne_nil : P.cryptoEd25519VerificationKey2018 ≠ []
  jwsVK_ne_nil : P.cryptoJwsVerificationKey2020 ≠ []
  sig_ne : P.Ed25519Signature2018 ≠ P.JSONWebSignature2020
  keyType_ne : P.Ed25519KeyType ≠ P.P256KeyType

/-- The variable `signatureKeyTypeMap`, as the list of its entries. -/
def signatureKeyTypeMap (P : Pkgs) : List (Str × Str) :=
  [(P.Ed25519Signature2018, P.cryptoEd25519VerificationKey2018),
   (P.JSONWebSignature2020, P.cryptoJwsVerificationKey2020)]

/-- Indexing a Go `map[string]string`: the value of the key, `""` when absent. -/
def mapIndex (m : List (Str × Str)) (key : Str) : Str :=
  (m.lookup key).getD []

/-! ## Collaborators, errors and the computation type -/

/-- A call made on a collaborator, with its arguments. -/
inductive Call
  | kmCreate (kt : KeyType)
  | kmExportPubKeyBytes (keyID : Str)
  | kmImportPrivateKey (privKey : Bytes) (kt : KeyType) (keyID : Str)
  | vdrResolve (didID : Str)
  | vdrCreate (method : Str) (didDoc : Doc) (opts : List DIDMethodOption)
  | registrarCreateDID (driverURL : Str) (opts : List CreateDIDOption)
  deriving DecidableEq, Repr

/-- Whether a call is a call on the DID registry (`vdr`). -/
def Call.isRegistryCall : Call → Bool
  | .vdrResolve _ => true
  | .vdrCreate _ _ _ => true
  | _ => false

/-- Whether a call is a call on the key manager. -/
def Call.isKeyManagerCall : Call → Bool
  | .kmCreate _ => true
  | .kmExportPubKeyBytes _ => true
  | .kmImportPrivateKey _ _ _ => true
  | _ => false

/-- Interface `keyManager` (`kms.KeyManager`): the three methods this file calls.
The first argument of a response function is the list of calls made before this
one; an `Except.error` carries the message of the returned Go error. -/
structure KeyManager where
  Create : List Call → KeyType → Except Str Str
  ExportPubKeyBytes : List Call → Str → Except Str Bytes
  /-- `ImportPrivateKey(privKey, keyType, kms.WithKeyID(keyID))` -/
  ImportPrivateKey : List Call → Bytes → KeyType → Str → Except Str Str

/-- Interface `vdrapi.Registry`: the two methods this file calls. -/
structure Registry where
  Resolve : List Call → Str → Except Str DocResolution
  Create : List Call → Str → Doc → List DIDMethodOption → Except Str DocResolution

/-- Interface `uniRegistrarClient`. -/
structure UniRegistrarClient where
  CreateDID : List Call → Str → List CreateDIDOption → Except Str (Str × List Key)

/-- The Go `error` values of this file, one constructor for each place an error
is made. -/
inductive Error
  /-- an error returned by a collaborator or a library function -/
  | external (msg : Str)
  /-- `"failed to create did public key: %v"` -/
  | createPublicKeyFailed (cause : Error)
  /-- `"failed to create did doc from uni-registrar: %v"` -/
  | registrarFailed (cause : Error)
  /-- `"selected key not found %s"` -/
  | selectedKeyNotFound (selectedKeyID : Str)
  /-- `"did:v1 - not able to find key with purpose %s"` -/
  | noKeyWithPurpose (purpose : Str)
  /-- `"failed to resolve did: %v"` -/
  | resolveFailed (cause : Error)
  /-- `"failed to create did doc: %v"` -/
  | createDocFailed (cause : Error)
  /-- `"no key found to match key type:%s and signature type:%s"` -/
  | noKeyFound (keyType signatureType : Str)
  /-- `"import key type not supported %s"` -/
  | importKeyTypeNotSupported (keyType : KeyType)
  /-- `"failed to import private key: %v"` -/
  | importFailed (cause : Error)
  deriving DecidableEq, Repr

/-- How a Go call ends: with a value (`err == nil`), with an error, or with a
runtime panic. -/
inductive Outcome (α : Type)
  | ok (a : α)
  | error (e : Error)
  | panic
  deriving DecidableEq, Repr

/-- A computation: from the calls made so far to an outcome and the calls made
by then. -/
def M (α : Type) : Type := List Call → Outcome α × List Call

/-- Return a value. -/
def M.pure {α : Type} (a : α) : M α := fun log => (.ok a, log)

/-- Sequencing: an error or a panic of the first part ends the computation. -/
def M.bind {α β : Type} (m : M α) (f : α → M β) : M β := fun log =>
  match m log with
  | (.ok a, log1) => f a log1
  | (.error e, log1) => (.error e, log1)
  | (.panic, log1) => (.panic, log1)

instance : Monad M where
  pure := M.pure
  bind := M.bind

/-- Return an error (`return ..., err`). -/
def M.fail {α : Type} (e : Error) : M α := fun log => (.error e, log)

/-- A runtime panic. -/
def M.panic {α : Type} : M α := fun log => (.panic, log)

/-- Rewrap the error of a computation (`fmt.Errorf("...: %v", err)`). -/
def M.wrapError {α : Type} (f : Error → Error) (m : M α) : M α := fun log =>
  match m log with
  | (.ok a, log1) => (.ok a, log1)
  | (.error e, log1) => (.error (f e), log1)
  | (.panic, log1) => (.panic, log1)

/-- The result of a pure library function. -/
def M.ofExcept {α : Type} : Except Str α → M α
  | .ok a => M.pure a
  | .error e => M.fail (.external e)

/-- A call on a collaborator: it is recorded, and its response is the one the
collaborator gives after the calls made before. -/
def M.call {α : Type} (c : Call) (response : List Call → Except Str α) : M α := fun log =>
  match response log with
  | .ok a => (.ok a, log ++ [c])
  | .error e => (.error (.external e), log ++ [c])

/-- `keyManager.Create(keyType)`; the key handle it also returns is unused. -/
def KeyManager.create (km : KeyManager) (kt : KeyType) : M Str :=
  M.call (.kmCreate kt) (fun log => km.Create log kt)

/-- `keyManager.ExportPubKeyBytes(keyID)`. -/
def KeyManager.exportPubKeyBytes (km : KeyManager) (keyID : Str) : M Bytes :=
  M.call (.kmExportPubKeyBytes keyID) (fun log => km.ExportPubKeyBytes log keyID)

/-- `keyManager.ImportPrivateKey(privKey, keyType, kms.WithKeyID(keyID))`. -/
def KeyManager.importPrivateKey (km : KeyManager) (privKey : Bytes) (kt : KeyType)
    (keyID : Str) : M Str :=
  M.call (.kmImportPrivateKey privKey kt keyID) (fun log => km.ImportPrivateKey log privKey kt keyID)

/-- `vdr.Resolve(didID)`. -/
def Registry.resolve (vdr : Registry) (didID : Str) : M DocResolution :=
  M.call (.vdrResolve didID) (fun log => vdr.Resolve log didID)

/-- `vdr.Create(method, didDoc, opts...)`. -/
def Registry.create (vdr : Registry) (method : Str) (didDoc : Doc)
    (opts : List DIDMethodOption) : M DocResolution :=
  M.call (.vdrCreate method didDoc opts) (fun log => vdr.Create log method didDoc opts)

/-- `uniRegistrarClient.CreateDID(driverURL, opts...)`. -/
def UniRegistrarClient.createDID (c : UniRegistrarClient) (driverURL : Str)
    (opts : List CreateDIDOption) : M (Str × List Key) :=
  M.call (.registrarCreateDID driverURL opts) (fun log => c.CreateDID log driverURL opts)

/-- A computation only adds calls, and all the calls it adds satisfy `allowed`. -/
def M.Emits {α : Type} (allowed : Call → Prop) (m : M α) : Prop :=
  ∀ log, ∃ calls, (m log).2 = log ++ calls ∧ ∀ c ∈ calls, allowed c

/-- A computation ends with an error, whatever the collaborators answer. -/
def M.Fails {α : Type} (m : M α) : Prop :=
  ∀ log, ∃ e, (m log).1 = .error e

/-- A computation never panics. -/
def M.NoPanic {α : Type} (m : M α) : Prop :=
  ∀ log, (m log).1 ≠ .panic

/-! ## The operations of `common.go` -/

/-- Type `CommonDID`. -/
structure CommonDID where
  uniRegistrarClient : UniRegistrarClient
  keyManager : KeyManager
  vdr : Registry
  domain : Str
  createKey : KeyType → KeyManager → M (Str × Bytes)

/-- Type `Config`.  Its fourth field, `TLSConfig`, is only handed to
`uniregistrar.New`; the client that call builds is the first argument of `New`. -/
structure Config where
  KeyManager : KeyManager
  VDRI : Registry
  Domain : Str

/-- Function `createKey`. -/
def createKey (keyType : KeyType) (keyManager : KeyManager) : M (Str × Bytes) := do
  let keyID ← keyManager.create keyType
  let pubKeyBytes ← keyManager.exportPubKeyBytes keyID
  pure (keyID, pubKeyBytes)

/-- Function `New`. -/
def New (client : UniRegistrarClient) (config : Config) : CommonDID :=
  { uniRegistrarClient := client
    keyManager := config.KeyManager
    domain := config.Domain
    vdr := config.VDRI
    createKey := createKey }

/-- Method `CommonDID.importKey`. -/
def importKey (o : CommonDID) (keyID : Str) (keyType : KeyType) (privateKeyBytes : Bytes) :
    M Unit := do
  let split := strings.Split keyID '#'
  match keyType with
  | .ED25519Type =>
    match split[1]? with
    | none => M.panic
    | some fragment =>
      let _ ← M.wrapError Error.importFailed
        (o.keyManager.importPrivateKey privateKeyBytes keyType fragment)
      pure ()
  | _ => M.fail (.importKeyTypeNotSupported keyType)

/-- Method `CommonDID.createPublicKeys`. -/
def createPublicKeys (P : Pkgs) (o : CommonDID) (keyType signatureType : Str) :
    M (Doc × List PublicKey × Str) := do
  let didDoc : Doc := {}
  let pks : List PublicKey := []
  -- Add key1
  let (key1ID, pubKeyBytes) ← o.createKey .ED25519Type o.keyManager
  let jwk ← M.ofExcept (P.JWKFromPublicKey (.ed25519 pubKeyBytes))
  let vm ← M.ofExcept (P.NewVerificationMethodFromJWK key1ID P.docEd25519VerificationKey2018 [] jwk)
  let pks := pks ++ [{ ID := vm.ID, Typ := vm.Typ, KeyType := P.Ed25519KeyType,
                       Value := P.base64Encode vm.Value,
                       Purposes := [P.KeyPurposeAssertionMethod, P.KeyPurposeAuthentication] }]
  let didDoc := didDoc.appendAuthentication (NewReferencedVerification vm .Authentication)
  let didDoc := didDoc.appendAssertionMethod (NewReferencedVerification vm .AssertionMethod)
  -- Add key2
  let (key2ID, pubKeyBytes) ← o.createKey .ED25519Type o.keyManager
  let jwk ← M.ofExcept (P.JWKFromPublicKey (.ed25519 pubKeyBytes))
  let vm ← M.ofExcept (P.NewVerificationMethodFromJWK key2ID P.docJWSVerificationKey2020 [] jwk)
  let pks := pks ++ [{ ID := vm.ID, Typ := vm.Typ, KeyType := P.Ed25519KeyType,
                       Value := P.base64Encode vm.Value,
                       Purposes := [P.KeyPurposeAssertionMethod, P.KeyPurposeAuthentication] }]
  let didDoc := didDoc.appendAuthentication (NewReferencedVerification vm .Authentication)
  let didDoc := didDoc.appendAssertionMethod (NewReferencedVerification vm .AssertionMethod)
  -- Add key3
  let (key3ID, pubKeyBytes) ← o.createKey .ECDSAP256IEEEP1363 o.keyManager
  let xy := P.ellipticUnmarshalP256 pubKeyBytes
  let jwk ← M.ofExcept (P.JWKFromPublicKey (.ecdsaP256 xy))
  let vm ← M.ofExcept (P.NewVerificationMethodFromJWK key3ID P.docJWSVerificationKey2020 [] jwk)
  let pks := pks ++ [{ ID := vm.ID, Typ := vm.Typ, KeyType := P.P256KeyType,
                       Value := P.base64Encode vm.Value,
                       Purposes := [P.KeyPurposeAssertionMethod, P.KeyPurposeAuthentication] }]
  let didDoc := didDoc.appendAuthentication (NewReferencedVerification vm .Authentication)
  let didDoc := didDoc.appendAssertionMethod (NewReferencedVerification vm .AssertionMethod)
  if keyType = P.Ed25519KeyType ∧
      P.docEd25519VerificationKey2018 = mapIndex (signatureKeyTypeMap P) signatureType then
    pure (didDoc, pks, key1ID)
  else if keyType = P.Ed25519KeyType ∧
      P.docJWSVerificationKey2020 = mapIndex (signatureKeyTypeMap P) signatureType then
    pure (didDoc, pks, key2ID)
  else if keyType = P.P256KeyType ∧
      P.docJWSVerificationKey2020 = mapIndex (signatureKeyTypeMap P) signatureType then
    pure (didDoc, pks, key3ID)
  else
    M.fail (.noKeyFound keyType signatureType)

/-- Method `CommonDID.createCreateDIDOptions`. -/
def createCreateDIDOptions (P : Pkgs) (pks : List PublicKey) (recoveryPubKey updatePubKey : Bytes)
    (registrar : UNIRegistrar) : List CreateDIDOption :=
  let opts : List CreateDIDOption :=
    pks.map (fun v => .WithPublicKey
      { ID := v.ID, Typ := v.Typ, Value := v.Value, KeyType := v.KeyType, Purposes := v.Purposes })
  opts ++
    [.WithPublicKey { KeyType := P.Ed25519KeyType, Value := P.base64Encode recoveryPubKey,
                      Recovery := true },
     .WithPublicKey { KeyType := P.Ed25519KeyType, Value := P.base64Encode updatePubKey,
                      Update := true },
     .WithOptions registrar.Options]

/-- Method `CommonDID.createDIDUniRegistrar`. -/
def createDIDUniRegistrar (P : Pkgs) (o : CommonDID) (keyType signatureType purpose : Str)
    (registrar : UNIRegistrar) : M (Str × Str) := do
  let (_, pks, selectedKeyID) ←
    M.wrapError Error.createPublicKeyFailed (createPublicKeys P o keyType signatureType)
  let (_, recoveryPubKey) ← o.createKey .ED25519Type o.keyManager
  let (_, updatePubKey) ← o.createKey .ED25519Type o.keyManager
  let opts := createCreateDIDOptions P pks recoveryPubKey updatePubKey registrar
  let (identifier, keys) ←
    M.wrapError Error.registrarFailed (o.uniRegistrarClient.createDID registrar.DriverURL opts)
  if strings.Contains identifier "did:trustbloc".toList then
    match keys.find? (fun v => strings.Contains v.ID ('#' :: selectedKeyID)) with
    | some v => pure (identifier, v.ID)
    | none => M.fail (.selectedKeyNotFound selectedKeyID)
  else if strings.Contains identifier "did:v1".toList then
    match keys.find? (fun v => v.Purposes.any (fun p => decide (purpose = p))) with
    | some v => do
      importKey o v.ID .ED25519Type (P.base58Decode v.PrivateKeyBase58)
      pure (identifier, v.ID)
    | none => M.fail (.noKeyWithPurpose purpose)
  else
    match keys[0]? with
    | none => M.panic
    | some key0 => do
      importKey o key0.ID .ED25519Type (P.base58Decode key0.PrivateKeyBase58)
      pure (identifier, key0.ID)

/-- Method `CommonDID.createDID`. -/
def createDID (P : Pkgs) (o : CommonDID) (keyType signatureType : Str) : M (Str × Str) := do
  let opts : List DIDMethodOption := []
  let (didDoc, _, selectedKeyID) ←
    M.wrapError Error.createPublicKeyFailed (createPublicKeys P o keyType signatureType)
  let (_, recoveryPubKey) ← o.createKey .ED25519Type o.keyManager
  let (_, updatePubKey) ← o.createKey .ED25519Type o.keyManager
  let opts := opts ++ [.WithOption P.RecoveryPublicKeyOpt recoveryPubKey,
                       .WithOption P.UpdatePublicKeyOpt updatePubKey]
  let docResolution ← M.wrapError Error.createDocFailed (o.vdr.create P.DIDMethod didDoc opts)
  pure (docResolution.DIDDocument.ID, docResolution.DIDDocument.ID ++ '#' :: selectedKeyID)

/-- Method `CommonDID.CreateDID`. -/
def CreateDID (P : Pkgs) (o : CommonDID)
    (keyType signatureType didID privateKey keyID purpose : Str) (registrar : UNIRegistrar) :
    M (Str × Str) := do
  let (createdDIDID, publicKeyID) ←
    if registrar.DriverURL ≠ [] then
      createDIDUniRegistrar P o keyType signatureType purpose registrar
    else if didID = [] then
      createDID P o keyType signatureType
    else do
      let docResolution ← M.wrapError Error.resolveFailed (o.vdr.resolve didID)
      let createdDIDID := docResolution.DIDDocument.ID
      if privateKey ≠ [] then
        importKey o keyID .ED25519Type (P.base58Decode privateKey)
      pure (createdDIDID, keyID)
  pure (replaceCanonicalDIDWithDomainDID o.domain createdDIDID publicKeyID)

/-! ## A sample instantiation

Concrete packages and collaborators, on which the definitions can be evaluated.
The constants have the values of the packages they come from; the library
functions are simple stand-ins. -/

/-- Sample packages. -/
def samplePkgs : Pkgs where
  Ed25519Signature2018 := "Ed25519Signature2018".toList
  JSONWebSignature2020 := "JsonWebSignature2020".toList
  cryptoEd25519VerificationKey2018 := "Ed25519VerificationKey2018".toList
  cryptoJwsVerificationKey2020 := "JwsVerificationKey2020".toList
  Ed25519KeyType := "Ed25519".toList
  P256KeyType := "P256".toList
  docEd25519VerificationKey2018 := "Ed25519VerificationKey2018".toList
  docJWSVerificationKey2020 := "JwsVerificationKey2020".toList
  KeyPurposeAssertionMethod := "assertionMethod".toList
  KeyPurposeAuthentication := "authentication".toList
  DIDMethod := "trustbloc".toList
  RecoveryPublicKeyOpt := "recoveryPublicKey".toList
  UpdatePublicKeyOpt := "updatePublicKey".toList
  base58Decode := fun s => s.map Char.toNat
  base64Encode := fun b => b.map Char.ofNat
  ellipticUnmarshalP256 := fun b => some (b.length, b.sum)
  JWKFromPublicKey := fun k => .ok { Kty := [], Crv := [], Key := k }
  NewVerificationMethodFromJWK := fun id typ controller jwk =>
    .ok { ID := id, Typ := typ, Controller := controller,
          Value := match jwk.Key with
            | .ed25519 bytes => bytes
            | .ecdsaP256 xy => match xy with
              | some (x, y) => [x, y]
              | none => [] }

/-- The number of `Create` calls of a call list. -/
def countCreate (log : List Call) : Nat :=
  (log.filter (fun c => match c with
    | .kmCreate _ => true
    | _ => false)).length

/-- A sample key manager: the n-th created key has the id `k` followed by n
times `x`; every import succeeds. -/
def sampleKeyManager : KeyManager where
  Create := fun log _ => .ok ('k' :: List.replicate (countCreate log + 1) 'x')
  ExportPubKeyBytes := fun _ keyID => .ok (keyID.map Char.toNat)
  ImportPrivateKey := fun _ _ _ keyID => .ok keyID

/-- A sample key manager that refuses every import. -/
def refusingKeyManager : KeyManager where
  Create := sampleKeyManager.Create
  ExportPubKeyBytes := sampleKeyManager.ExportPubKeyBytes
  ImportPrivateKey := fun _ _ _ _ => .error "import refused".toList

/-- A sample registry: every identifier resolves to a document with that
identifier; a created document gets the identifier `newID`. -/
def sampleRegistry (newID : Str) : Registry where
  Resolve := fun _ didID => .ok { DIDDocument := { ID := didID } }
  Create := fun _ _ didDoc _ => .ok { DIDDocument := { didDoc with ID := newID } }

/-- A sample registrar client: it answers every request with `identifier` and
`keys`. -/
def sampleRegistrarClient (identifier : Str) (keys : List Key) : UniRegistrarClient where
  CreateDID := fun _ _ _ => .ok (identifier, keys)

/-- A sample configuration with domain `example.com`. -/
def sampleConfig : Config where
  KeyManager := sampleKeyManager
  VDRI := sampleRegistry "did:trustbloc:testnet:abc".toList
  Domain := "example.com".toList

/-- A sample registrar reply: one key of a `did:trustbloc` identifier. -/
def sampleKeys : List Key :=
  [{ ID := "did:trustbloc:testnet:abc#kx".toList, Purposes := [], PrivateKeyBase58 := [] }]

/-- A sample engine: sample key manager and registry, and a registrar that
answers `did:trustbloc:testnet:abc` with `sampleKeys`. -/
def sampleDID : CommonDID :=
  New (sampleRegistrarClient "did:trustbloc:testnet:abc".toList sampleKeys) sampleConfig

/-- A sample engine whose key manager refuses imports and whose registrar
answers `did:v1:test:xyz` with one key for the purpose `assertionMethod`. -/
def refusingDID : CommonDID :=
  New (sampleRegistrarClient "did:v1:test:xyz".toList
        [{ ID := "did:v1:test:xyz#key1".toList, Purposes := ["assertionMethod".toList],
           PrivateKeyBase58 := "abc".toList }])
    { KeyManager := refusingKeyManager, VDRI := sampleRegistry [], Domain := "example.com".toList }

/-- A sample engine whose registrar answers `did:v1:test:xyz` with two keys, the
second one for the purpose `assertionMethod`. -/
def sampleV1DID : CommonDID :=
  New (sampleRegistrarClient "did:v1:test:xyz".toList
        [{ ID := "did:v1:test:xyz#key1".toList, Purposes := ["authentication".toList],
           PrivateKeyBase58 := "abc".toList },
         { ID := "did:v1:test:xyz#key2".toList,
           Purposes := ["authentication".toList, "assertionMethod".toList],
           PrivateKeyBase58 := "def".toList }])
    sampleConfig

/-- A sample engine whose registrar answers `did:example:123` with an empty key
list. -/
def emptyReplyDID : CommonDID :=
  New (sampleRegistrarClient "did:example:123".toList []) sampleConfig

/-- A sample engine whose registrar answers `did:v1:test:xyz` with one key for
the purpose `assertionMethod`, whose identifier `key1` has no `#`. -/
def noFragmentDID : CommonDID :=
  New (sampleRegistrarClient "did:v1:test:xyz".toList
        [{ ID := "key1".toList, Purposes := ["assertionMethod".toList],
           PrivateKeyBase58 := "abc".toList }])
    sampleConfig

/-- A registrar descriptor without a driver URL. -/
def noRegistrar : UNIRegistrar := { DriverURL := [], Options := [] }

/-- A registrar descriptor with a driver URL. -/
def sampleRegistrar : UNIRegistrar := { DriverURL := "https://uni/driver".toList, Options := [] }

/-! ## Lemmas on computations -/

@[simp] theorem pure_apply {α : Type} (a : α) (log : List Call) :
    (pure a : M α) log = (.ok a, log) := rfl

@[simp] theorem bind_apply {α β : Type} (m : M α) (f : α → M β) (log : List Call) :
    (m >>= f) log = (match m log with
      | (.ok a, log1) => f a log1
      | (.error e, log1) => (.error e, log1)
      | (.panic, log1) => (.panic, log1)) := rfl

theorem Emits_pure {α : Type} (allowed : Call → Prop) (a : α) :
    M.Emits allowed (pure a : M α) :=
  fun log => ⟨[], by simp, by simp⟩

theorem Emits_fail {α : Type} (allowed : Call → Prop) (e : Error) :
    M.Emits allowed (M.fail e : M α) :=
  fun log => ⟨[], by simp [M.fail], by simp⟩

theorem Emits_panic {α : Type} (allowed : Call → Prop) :
    M.Emits allowed (M.panic : M α) :=
  fun log => ⟨[], by simp [M.panic], by simp⟩

theorem Emits_ofExcept {α : Type} (allowed : Call → Prop) (r : Except Str α) :
    M.Emits allowed (M.ofExcept r) := by
  cases r with
  | ok a => exact fun log => ⟨[], by simp [M.ofExcept, M.pure], by simp⟩
  | error e => exact Emits_fail allowed _

theorem Emits_call {α : Type} (allowed : Call → Prop) (c : Call)
    (response : List Call → Except Str α) (hc : allowed c) :
    M.Emits allowed (M.call c response) := by
  intro log
  refine ⟨[c], ?_, by simpa using hc⟩
  unfold M.call
  cases response log <;> rfl

theorem Emits_wrapError {α : Type} (allowed : Call → Prop) (f : Error → Error) (m : M α)
    (hm : M.Emits allowed m) : M.Emits allowed (M.wrapError f m) := by
  intro log
  obtain ⟨calls, h1, h2⟩ := hm log
  refine ⟨calls, ?_, h2⟩
  unfold M.wrapError
  rcases hr : m log with ⟨r, log1⟩
  rw [hr] at h1
  cases r <;> simpa using h1

theorem Emits_bind {α β : Type} (allowed : Call → Prop) (m : M α) (f : α → M β)
    (hm : M.Emits allowed m) (hf : ∀ a, M.Emits allowed (f a)) :
    M.Emits allowed (m >>= f) := by
  intro log
  obtain ⟨calls, h1, h2⟩ := hm log
  rw [bind_apply]
  rcases hr : m log with ⟨r, log1⟩
  rw [hr] at h1
  simp only at h1
  cases r with
  | ok a =>
    obtain ⟨calls2, h3, h4⟩ := hf a log1
    refine ⟨calls ++ calls2, ?_, ?_⟩
    · show (f a log1).2 = log ++ (calls ++ calls2)
      rw [h3, h1, List.append_assoc]
    · intro c hc
      rcases List.mem_append.1 hc with hc | hc
      · exact h2 c hc
      · exact h4 c hc
  | error e => exact ⟨calls, h1, h2⟩
  | panic => exact ⟨calls, h1, h2⟩

theorem createKey_Emits (allowed : Call → Prop) (kt : KeyType) (km : KeyManager)
    (hkm : ∀ c, c.isKeyManagerCall = true → allowed c) :
    M.Emits allowed (createKey kt km) := by
  unfold createKey
  apply Emits_bind
  · exact Emits_call _ _ _ (hkm _ rfl)
  · intro keyID
    apply Emits_bind
    · exact Emits_call _ _ _ (hkm _ rfl)
    · intro b
      exact Emits_pure _ _

theorem importKey_Emits (allowed : Call → Prop) (o : CommonDID) (keyID : Str) (kt : KeyType)
    (priv : Bytes) (hkm : ∀ c, c.isKeyManagerCall = true → allowed c) :
    M.Emits allowed (importKey o keyID kt priv) := by
  unfold importKey
  cases kt with
  | ED25519Type =>
    simp only
    split
    · exact Emits_panic _
    · apply Emits_bind
      · exact Emits_wrapError _ _ _ (Emits_call _ _ _ (hkm _ rfl))
      · intro _
        exact Emits_pure _ _
  | ECDSAP256IEEEP1363 => exact Emits_fail _ _

theorem createPublicKeys_Emits (allowed : Call → Prop) (P : Pkgs) (o : CommonDID)
    (keyType signatureType : Str) (ho : ∀ kt km, M.Emits allowed (o.createKey kt km)) :
    M.Emits allowed (createPublicKeys P o keyType signatureType) := by
  unfold createPublicKeys
  repeat (first
    | exact ho _ _
    | exact Emits_pure _ _
    | exact Emits_fail _ _
    | exact Emits_ofExcept _ _
    | refine Emits_bind _ _ _ ?_ (fun _ => ?_)
    | split)

theorem createDIDUniRegistrar_Emits (allowed : Call → Prop) (P : Pkgs) (o : CommonDID)
    (keyType signatureType purpose : Str) (registrar : UNIRegistrar)
    (ho : ∀ kt km, M.Emits allowed (o.createKey kt km))
    (hkm : ∀ c, c.isKeyManagerCall = true → allowed c)
    (hreg : ∀ url opts, allowed (.registrarCreateDID url opts)) :
    M.Emits allowed (createDIDUniRegistrar P o keyType signatureType purpose registrar) := by
  unfold createDIDUniRegistrar
  repeat (first
    | exact ho _ _
    | exact Emits_pure _ _
    | exact Emits_fail _ _
    | exact Emits_panic _
    | exact importKey_Emits _ _ _ _ _ hkm
    | exact Emits_wrapError _ _ _ (createPublicKeys_Emits _ _ _ _ _ ho)
    | exact Emits_wrapError _ _ _ (Emits_call _ _ _ (hreg _ _))
    | refine Emits_bind _ _ _ ?_ (fun _ => ?_)
    | split)

/-! ## Lemmas on the string functions -/

theorem isPrefixOf_append_self (a b : Str) : a.isPrefixOf (a ++ b) = true := by
  induction a with
  | nil => simp [List.isPrefixOf]
  | cons c cs ih => simp [List.isPrefixOf, ih]

theorem Split_ne_nil (s : Str) (sep : Char) : strings.Split s sep ≠ [] := by
  induction s with
  | nil => simp [strings.Split]
  | cons c cs ih =>
    unfold strings.Split
    split
    · simp
    · split <;> simp

/-- A piece without the separator, followed by the separator, is the first piece. -/
theorem Split_append_sep (a rest : Str) (sep : Char) (ha : sep ∉ a) :
    strings.Split (a ++ sep :: rest) sep = a :: strings.Split rest sep := by
  induction a with
  | nil => simp [strings.Split]
  | cons c cs ih =>
    have hc : c ≠ sep := fun h => ha (by simp [h])
    have hcs : sep ∉ cs := fun h => ha (by simp [h])
    simp [strings.Split, hc, ih hcs]

/-- A string without the separator is a single piece. -/
theorem Split_no_sep (a : Str) (sep : Char) (ha : sep ∉ a) : strings.Split a sep = [a] := by
  induction a with
  | nil => simp [strings.Split]
  | cons c cs ih =>
    have hc : c ≠ sep := fun h => ha (by simp [h])
    have hcs : sep ∉ cs := fun h => ha (by simp [h])
    simp [strings.Split, hc, ih hcs]

theorem replaceScan_skip (old new xs rest : Str) :
    strings.replaceScan old new xs.length (xs ++ rest) = strings.replaceScan old new 0 rest := by
  induction xs with
  | nil => simp
  | cons c cs ih => simpa [strings.replaceScan] using ih

/-- An occurrence of `old` at the head of the string is replaced, and the scan
goes on behind it. -/
theorem replaceScan_occurrence (old new rest : Str) (h : old ≠ []) :
    strings.replaceScan old new 0 (old ++ rest)
      = new ++ strings.replaceScan old new 0 rest := by
  cases old with
  | nil => exact absurd rfl h
  | cons c cs =>
    have hp : (c :: cs).isPrefixOf (c :: (cs ++ rest)) = true :=
      isPrefixOf_append_self (c :: cs) rest
    simp only [List.cons_append, strings.replaceScan, List.length_cons, Nat.add_sub_cancel,
      List.append_eq]
    rw [if_pos hp, replaceScan_skip]

/-- A character that is not the first of `old` is copied. -/
theorem replaceScan_other (c0 c : Char) (old0 new rest : Str) (h : c ≠ c0) :
    strings.replaceScan (c0 :: old0) new 0 (c :: rest)
      = c :: strings.replaceScan (c0 :: old0) new 0 rest := by
  have hc : (c0 == c) = false := by simpa using (Ne.symm h)
  simp [strings.replaceScan, List.isPrefixOf, hc]

/-- Without an occurrence of `old` the scan copies the string. -/
theorem replaceScan_not_Contains (old new s : Str) (h : strings.Contains s old = false) :
    strings.replaceScan old new 0 s = s := by
  induction s with
  | nil => simp [strings.replaceScan]
  | cons c cs ih =>
    simp only [strings.Contains, Bool.or_eq_false_iff] at h
    simp [strings.replaceScan, h.1, ih h.2]

theorem trustbloc_chars :
    "did:trustbloc".toList = ['d', 'i', 'd', ':', 't', 'r', 'u', 's', 't', 'b', 'l', 'o', 'c'] := rfl

theorem trustbloc_colon_chars :
    "did:trustbloc:".toList
      = ['d', 'i', 'd', ':', 't', 'r', 'u', 's', 't', 'b', 'l', 'o', 'c', ':'] := rfl

/-- The rewriter on a four-segment `did:trustbloc` identifier and a key
identifier that starts with it. -/
theorem rewrite_four_segments (D L S rest : Str) (hL : ':' ∉ L) (hS : ':' ∉ S) :
    replaceCanonicalDIDWithDomainDID D ("did:trustbloc:".toList ++ (L ++ ':' :: S))
        ("did:trustbloc:".toList ++ (L ++ ':' :: S) ++ '#' :: rest)
      = ("did:trustbloc:".toList ++ (D ++ ':' :: S),
         "did:trustbloc:".toList ++ (D ++ ':' :: S) ++ '#' ::
           strings.replaceScan ("did:trustbloc:".toList ++ (L ++ ':' :: S))
             ("did:trustbloc:".toList ++ (D ++ ':' :: S)) 0 rest) := by
  have hsplit : strings.Split ("did:trustbloc:".toList ++ (L ++ ':' :: S)) ':'
      = ["did".toList, "trustbloc".toList, L, S] := by
    have h1 : "did:trustbloc:".toList ++ (L ++ ':' :: S)
        = "did".toList ++ ':' :: ("trustbloc".toList ++ ':' :: (L ++ ':' :: S)) := rfl
    rw [h1, Split_append_sep _ _ _ (by decide), Split_append_sep _ _ _ (by decide),
      Split_append_sep _ _ _ hL, Split_no_sep _ _ hS]
  have hpre : strings.HasPrefix ("did:trustbloc:".toList ++ (L ++ ':' :: S))
      "did:trustbloc".toList = true := by
    have h1 : "did:trustbloc:".toList ++ (L ++ ':' :: S)
        = "did:trustbloc".toList ++ (':' :: (L ++ ':' :: S)) := rfl
    rw [h1]
    exact isPrefixOf_append_self _ _
  have hne : "did:trustbloc:".toList ++ (L ++ ':' :: S) ≠ [] := by
    rw [trustbloc_colon_chars]; simp
  have hnew : "did".toList ++ ':' :: ("trustbloc".toList ++ ':' :: (D ++ ':' :: S))
      = "did:trustbloc:".toList ++ (D ++ ':' :: S) := rfl
  unfold replaceCanonicalDIDWithDomainDID
  rw [if_pos hpre]
  simp only [hsplit, splitDidIDLength, List.length_cons, List.length_nil, if_true, hnew]
  congr 1
  unfold strings.ReplaceAll
  rw [if_neg hne, replaceScan_occurrence _ _ _ hne]
  have hhead : "did:trustbloc:".toList ++ (L ++ ':' :: S)
      = 'd' :: ("id:trustbloc:".toList ++ (L ++ ':' :: S)) := rfl
  rw [hhead, replaceScan_other _ _ _ _ _ (by decide)]

/-! ## The strategy dispatcher -/

/-- C1: when the registrar driver URL is non-empty, `CreateDID` is the registrar
strategy followed by the domain rewriter, whatever `didID`, `privateKey` and
`keyID` are: its outcome and its calls are those of `createDIDUniRegistrar`, a
successful `(identifier, key id)` passed through the rewriter, an error passed
on as it is; and none of the calls made is a call on the DID registry. -/
theorem CreateDID_registrar_strategy (P : Pkgs) (client : UniRegistrarClient) (config : Config)
    (keyType signatureType didID privateKey keyID purpose : Str) (registrar : UNIRegistrar)
    (log : List Call) (h : registrar.DriverURL ≠ []) :
    CreateDID P (New client config) keyType signatureType didID privateKey keyID purpose
        registrar log
      = (match createDIDUniRegistrar P (New client config) keyType signatureType purpose
            registrar log with
        | (.ok r, log1) => (.ok (replaceCanonicalDIDWithDomainDID config.Domain r.1 r.2), log1)
        | (.error e, log1) => (.error e, log1)
        | (.panic, log1) => (.panic, log1))
    ∧ ∃ calls,
        (CreateDID P (New client config) keyType signatureType didID privateKey keyID purpose
          registrar log).2 = log ++ calls
        ∧ ∀ c ∈ calls, c.isRegistryCall = false := by
  have hcreate : ∀ kt km,
      M.Emits (fun c => c.isRegistryCall = false) ((New client config).createKey kt km) :=
    fun kt km => createKey_Emits _ kt km
      (by intro c; cases c <;> simp [Call.isKeyManagerCall, Call.isRegistryCall])
  constructor
  · unfold CreateDID
    rw [if_pos h, bind_apply]
    rcases createDIDUniRegistrar P (New client config) keyType signatureType purpose
      registrar log with ⟨r, log1⟩
    cases r with
    | ok r => cases r; rfl
    | error e => rfl
    | panic => rfl
  · have hall : M.Emits (fun c => c.isRegistryCall = false)
        (CreateDID P (New client config) keyType signatureType didID privateKey keyID purpose
          registrar) := by
      unfold CreateDID
      rw [if_pos h]
      refine Emits_bind _ _ _ ?_ (fun r => ?_)
      · exact createDIDUniRegistrar_Emits _ _ _ _ _ _ _ hcreate
          (by intro c; cases c <;> simp [Call.isKeyManagerCall, Call.isRegistryCall])
          (fun _ _ => rfl)
      · obtain ⟨createdDIDID, publicKeyID⟩ := r
        exact Emits_pure _ _
    exact hall log

/-- The registrar strategy of the sample engine makes no registry call. -/
theorem CreateDID_registrar_strategy_witness :
    sampleRegistrar.DriverURL ≠ [] ∧
    ∃ calls,
      (CreateDID samplePkgs
        (New (sampleRegistrarClient "did:trustbloc:testnet:abc".toList sampleKeys) sampleConfig)
        "Ed25519".toList "Ed25519Signature2018".toList "did:other".toList "priv".toList
        "did:other#key".toList [] sampleRegistrar []).2 = [] ++ calls
      ∧ ∀ c ∈ calls, c.isRegistryCall = false :=
  ⟨by decide,
   (CreateDID_registrar_strategy samplePkgs
      (sampleRegistrarClient "did:trustbloc:testnet:abc".toList sampleKeys) sampleConfig
      "Ed25519".toList "Ed25519Signature2018".toList "did:other".toList "priv".toList
      "did:other#key".toList [] sampleRegistrar [] (by decide)).2⟩

/-! ## The key selector -/

/-- The sample constants are as the code needs them. -/
theorem samplePkgs_ConstsOK : samplePkgs.ConstsOK :=
  ⟨by decide, by decide, by decide, by decide, by decide, by decide, by decide⟩

/-- Indexing `signatureKeyTypeMap`. -/
theorem mapIndex_signatureKeyTypeMap (P : Pkgs) (signatureType : Str) :
    mapIndex (signatureKeyTypeMap P) signatureType
      = if signatureType = P.Ed25519Signature2018 then P.cryptoEd25519VerificationKey2018
        else if signatureType = P.JSONWebSignature2020 then P.cryptoJwsVerificationKey2020
        else [] := by
  unfold mapIndex signatureKeyTypeMap
  by_cases h1 : signatureType = P.Ed25519Signature2018
  · have hb1 : (signatureType == P.Ed25519Signature2018) = true := by simpa using h1
    simp only [List.lookup, hb1, if_pos h1, Option.getD_some]
  · have hb1 : (signatureType == P.Ed25519Signature2018) = false := by simpa using h1
    by_cases h2 : signatureType = P.JSONWebSignature2020
    · have hb2 : (signatureType == P.JSONWebSignature2020) = true := by simpa using h2
      simp only [List.lookup, hb1, hb2, if_neg h1, if_pos h2, Option.getD_some]
    · have hb2 : (signatureType == P.JSONWebSignature2020) = false := by simpa using h2
      simp only [List.lookup, hb1, hb2, if_neg h1, if_neg h2, Option.getD_none]

/-- The legacy verification key type is the map value of exactly the legacy
signature type. -/
theorem ed25519VK_eq_mapIndex (P : Pkgs) (hP : P.ConstsOK) (signatureType : Str) :
    P.docEd25519VerificationKey2018 = mapIndex (signatureKeyTypeMap P) signatureType
      ↔ signatureType = P.Ed25519Signature2018 := by
  rw [mapIndex_signatureKeyTypeMap, hP.ed25519VK]
  split_ifs with h1 h2
  · simp [h1]
  · simp [h1, hP.vk_ne]
  · simp [h1, hP.ed25519VK_ne_nil]

/-- The 2020 verification key type is the map value of exactly the 2020
signature type. -/
theorem jwsVK_eq_mapIndex (P : Pkgs) (hP : P.ConstsOK) (signatureType : Str) :
    P.docJWSVerificationKey2020 = mapIndex (signatureKeyTypeMap P) signatureType
      ↔ signatureType = P.JSONWebSignature2020 := by
  rw [mapIndex_signatureKeyTypeMap, hP.jwsVK]
  split_ifs with h1 h2
  · have h3 : signatureType ≠ P.JSONWebSignature2020 := h1 ▸ hP.sig_ne
    simp [h3, Ne.symm hP.vk_ne]
  · simp [h2]
  · simp [h2, hP.jwsVK_ne_nil]

/-- C2: when the three keys are created and built (ids `k1`, `k2`, `k3` in
creation order), `createPublicKeys` returns `k1` for (Ed25519,
Ed25519Signature2018), `k2` for (Ed25519, JsonWebSignature2020), `k3` for
(P256, JsonWebSignature2020), and the no-key-found error for every other pair of
key type and signature type; the document and the key list are the same in the
three cases, and the choice does not depend on the key material. -/
theorem createPublicKeys_selects (P : Pkgs) (o : CommonDID) (keyType signatureType : Str)
    (log0 log1 log2 log3 : List Call) (k1 k2 k3 : Str) (b1 b2 b3 : Bytes) (j1 j2 j3 : JWK)
    (vm1 vm2 vm3 : VerificationMethod) (hP : P.ConstsOK)
    (hk1 : o.createKey .ED25519Type o.keyManager log0 = (.ok (k1, b1), log1))
    (hj1 : P.JWKFromPublicKey (.ed25519 b1) = .ok j1)
    (hv1 : P.NewVerificationMethodFromJWK k1 P.docEd25519VerificationKey2018 [] j1 = .ok vm1)
    (hk2 : o.createKey .ED25519Type o.keyManager log1 = (.ok (k2, b2), log2))
    (hj2 : P.JWKFromPublicKey (.ed25519 b2) = .ok j2)
    (hv2 : P.NewVerificationMethodFromJWK k2 P.docJWSVerificationKey2020 [] j2 = .ok vm2)
    (hk3 : o.createKey .ECDSAP256IEEEP1363 o.keyManager log2 = (.ok (k3, b3), log3))
    (hj3 : P.JWKFromPublicKey (.ecdsaP256 (P.ellipticUnmarshalP256 b3)) = .ok j3)
    (hv3 : P.NewVerificationMethodFromJWK k3 P.docJWSVerificationKey2020 [] j3 = .ok vm3) :
    ∃ didDoc pks,
      createPublicKeys P o keyType signatureType log0
        = (if keyType = P.Ed25519KeyType ∧ signatureType = P.Ed25519Signature2018 then
            (.ok (didDoc, pks, k1), log3)
          else if keyType = P.Ed25519KeyType ∧ signatureType = P.JSONWebSignature2020 then
            (.ok (didDoc, pks, k2), log3)
          else if keyType = P.P256KeyType ∧ signatureType = P.JSONWebSignature2020 then
            (.ok (didDoc, pks, k3), log3)
          else (.error (.noKeyFound keyType signatureType), log3)) := by
  refine ⟨?didDoc, ?pks, ?_⟩
  case didDoc =>
    exact ((((((({} : Doc).appendAuthentication (NewReferencedVerification vm1 .Authentication)).appendAssertionMethod
      (NewReferencedVerification vm1 .AssertionMethod)).appendAuthentication
      (NewReferencedVerification vm2 .Authentication)).appendAssertionMethod
      (NewReferencedVerification vm2 .AssertionMethod)).appendAuthentication
      (NewReferencedVerification vm3 .Authentication)).appendAssertionMethod
      (NewReferencedVerification vm3 .AssertionMethod))
  case pks =>
    exact [] ++ [{ ID := vm1.ID, Typ := vm1.Typ, KeyType := P.Ed25519KeyType,
                   Value := P.base64Encode vm1.Value,
                   Purposes := [P.KeyPurposeAssertionMethod, P.KeyPurposeAuthentication] }]
      ++ [{ ID := vm2.ID, Typ := vm2.Typ, KeyType := P.Ed25519KeyType,
            Value := P.base64Encode vm2.Value,
            Purposes := [P.KeyPurposeAssertionMethod, P.KeyPurposeAuthentication] }]
      ++ [{ ID := vm3.ID, Typ := vm3.Typ, KeyType := P.P256KeyType,
            Value := P.base64Encode vm3.Value,
            Purposes := [P.KeyPurposeAssertionMethod, P.KeyPurposeAuthentication] }]
  unfold createPublicKeys
  simp only [bind_apply, hk1, hj1, hv1, hk2, hj2, hv2, hk3, hj3, hv3, M.ofExcept, M.pure,
    ed25519VK_eq_mapIndex P hP, jwsVK_eq_mapIndex P hP]
  split_ifs <;> rfl

/-- On the sample engine (Ed25519, JsonWebSignature2020) selects the second key. -/
theorem createPublicKeys_selects_witness :
    ∃ didDoc pks,
      createPublicKeys samplePkgs sampleDID "Ed25519".toList "JsonWebSignature2020".toList []
        = (.ok (didDoc, pks, "kxx".toList),
           [.kmCreate .ED25519Type, .kmExportPubKeyBytes "kx".toList,
            .kmCreate .ED25519Type, .kmExportPubKeyBytes "kxx".toList,
            .kmCreate .ECDSAP256IEEEP1363, .kmExportPubKeyBytes "kxxx".toList]) := by
  obtain ⟨didDoc, pks, h⟩ := createPublicKeys_selects samplePkgs sampleDID "Ed25519".toList
    "JsonWebSignature2020".toList []
    [.kmCreate .ED25519Type, .kmExportPubKeyBytes "kx".toList]
    [.kmCreate .ED25519Type, .kmExportPubKeyBytes "kx".toList,
     .kmCreate .ED25519Type, .kmExportPubKeyBytes "kxx".toList]
    [.kmCreate .ED25519Type, .kmExportPubKeyBytes "kx".toList,
     .kmCreate .ED25519Type, .kmExportPubKeyBytes "kxx".toList,
     .kmCreate .ECDSAP256IEEEP1363, .kmExportPubKeyBytes "kxxx".toList]
    "kx".toList "kxx".toList "kxxx".toList _ _ _ _ _ _ _ _ _ samplePkgs_ConstsOK
    rfl rfl rfl rfl rfl rfl rfl rfl rfl
  rw [if_neg (by decide), if_pos (by decide)] at h
  exact ⟨didDoc, pks, h⟩

/-! ## The domain rewriter -/

/-- C3 (as stated, refuted): with ledger `ledgerA`, suffix `abc123`, domain
`example.com` and the fragment `did:trustbloc:ledgerA:abc123`, the rewritten key
identifier is not `did:trustbloc:example.com:abc123#` followed by the fragment:
the old DID is replaced inside the fragment too. -/
theorem rewrite_changes_fragment :
    replaceCanonicalDIDWithDomainDID "example.com".toList "did:trustbloc:ledgerA:abc123".toList
        "did:trustbloc:ledgerA:abc123#did:trustbloc:ledgerA:abc123".toList
      = ("did:trustbloc:example.com:abc123".toList,
         "did:trustbloc:example.com:abc123#did:trustbloc:example.com:abc123".toList)
    ∧ replaceCanonicalDIDWithDomainDID "example.com".toList "did:trustbloc:ledgerA:abc123".toList
        "did:trustbloc:ledgerA:abc123#did:trustbloc:ledgerA:abc123".toList
      ≠ ("did:trustbloc:example.com:abc123".toList,
         "did:trustbloc:example.com:abc123#did:trustbloc:ledgerA:abc123".toList) := by
  decide

/-- C3 (amended): for colon-free `L` and `S`, every domain `D` and every
fragment `F`, the rewriter maps `did:trustbloc:L:S` and `did:trustbloc:L:S#F` to
`did:trustbloc:D:S` and `did:trustbloc:D:S#G`, where `G` is `F` with every
occurrence of the old DID replaced by the new one; `G` is `F` when the old DID
does not occur in `F`. -/
theorem rewrite_trustbloc_did (D L S F : Str) (hL : ':' ∉ L) (hS : ':' ∉ S) :
    replaceCanonicalDIDWithDomainDID D ("did:trustbloc:".toList ++ (L ++ ':' :: S))
        ("did:trustbloc:".toList ++ (L ++ ':' :: S) ++ '#' :: F)
      = ("did:trustbloc:".toList ++ (D ++ ':' :: S),
         "did:trustbloc:".toList ++ (D ++ ':' :: S) ++ '#' ::
           strings.ReplaceAll F ("did:trustbloc:".toList ++ (L ++ ':' :: S))
             ("did:trustbloc:".toList ++ (D ++ ':' :: S)))
    ∧ (strings.Contains F ("did:trustbloc:".toList ++ (L ++ ':' :: S)) = false →
        replaceCanonicalDIDWithDomainDID D ("did:trustbloc:".toList ++ (L ++ ':' :: S))
            ("did:trustbloc:".toList ++ (L ++ ':' :: S) ++ '#' :: F)
          = ("did:trustbloc:".toList ++ (D ++ ':' :: S),
             "did:trustbloc:".toList ++ (D ++ ':' :: S) ++ '#' :: F)) := by
  have hne : "did:trustbloc:".toList ++ (L ++ ':' :: S) ≠ [] := by
    rw [trustbloc_colon_chars]; simp
  have hscan : strings.ReplaceAll F ("did:trustbloc:".toList ++ (L ++ ':' :: S))
      ("did:trustbloc:".toList ++ (D ++ ':' :: S))
      = strings.replaceScan ("did:trustbloc:".toList ++ (L ++ ':' :: S))
          ("did:trustbloc:".toList ++ (D ++ ':' :: S)) 0 F := by
    unfold strings.ReplaceAll
    rw [if_neg hne]
  constructor
  · rw [hscan]
    exact rewrite_four_segments D L S F hL hS
  · intro hF
    rw [rewrite_four_segments D L S F hL hS, replaceScan_not_Contains _ _ _ hF]

/-- The rewriter on `did:trustbloc:ledgerA:abc123`, domain `example.com`, fragment `key1`. -/
theorem rewrite_trustbloc_did_witness :
    replaceCanonicalDIDWithDomainDID "example.com".toList "did:trustbloc:ledgerA:abc123".toList
        "did:trustbloc:ledgerA:abc123#key1".toList
      = ("did:trustbloc:example.com:abc123".toList,
         "did:trustbloc:example.com:abc123#key1".toList) :=
  (rewrite_trustbloc_did "example.com".toList "ledgerA".toList "abc123".toList "key1".toList
    (by decide) (by decide)).2 (by decide)

/-- C4 (as stated, refuted): `did:trustblocx:a:b` does not start with
`did:trustbloc:`, and the rewriter changes it and the key identifier. -/
theorem rewrite_without_colon_after_method :
    strings.HasPrefix "did:trustblocx:a:b".toList "did:trustbloc:".toList = false
    ∧ replaceCanonicalDIDWithDomainDID "example.com".toList "did:trustblocx:a:b".toList
        "did:trustblocx:a:b#key1".toList
      = ("did:trustblocx:example.com:b".toList, "did:trustblocx:example.com:b#key1".toList) := by
  decide

/-- C4 (amended): for every `didID` that does not start with `did:trustbloc`
(the thirteen characters, without a colon behind them) and every `publicKeyID`,
the rewriter returns both unchanged, for every domain. -/
theorem rewrite_other_method (domain didID publicKeyID : Str)
    (h : strings.HasPrefix didID "did:trustbloc".toList = false) :
    replaceCanonicalDIDWithDomainDID domain didID publicKeyID = (didID, publicKeyID) := by
  unfold replaceCanonicalDIDWithDomainDID
  rw [h]
  rfl

/-- The rewriter leaves `did:v1:test:xyz` and its key id unchanged. -/
theorem rewrite_other_method_witness :
    strings.HasPrefix "did:v1:test:xyz".toList "did:trustbloc".toList = false
    ∧ replaceCanonicalDIDWithDomainDID "example.com".toList "did:v1:test:xyz".toList
        "did:v1:test:xyz#key1".toList
      = ("did:v1:test:xyz".toList, "did:v1:test:xyz#key1".toList) :=
  ⟨by decide, rewrite_other_method _ _ _ (by decide)⟩

/-- A key identifier that does not contain the DID is not changed by the
rewriter. -/
theorem rewrite_snd_of_not_Contains (domain didID publicKeyID : Str)
    (h : strings.Contains publicKeyID didID = false) :
    (replaceCanonicalDIDWithDomainDID domain didID publicKeyID).2 = publicKeyID := by
  unfold replaceCanonicalDIDWithDomainDID
  dsimp only
  split
  · rename_i hpre
    have hne : didID ≠ [] := by
      intro h0
      rw [h0] at hpre
      exact absurd hpre (by decide)
    split
    · split
      · simp only [strings.ReplaceAll, if_neg hne]
        exact replaceScan_not_Contains _ _ _ h
      · rfl
    · rfl
  · rfl

/-! ## The adoption strategy -/

/-- C5 (as stated, refuted): adoption of `did:trustbloc:ledgerA:abc123` without
a private key and with key id `did:trustbloc:ledgerA:abc123#key1`, domain
`example.com`: the returned key id is not the caller's key id. -/
theorem adoption_rewrites_keyID :
    CreateDID samplePkgs sampleDID "Ed25519".toList "Ed25519Signature2018".toList
        "did:trustbloc:ledgerA:abc123".toList [] "did:trustbloc:ledgerA:abc123#key1".toList []
        noRegistrar []
      = (.ok ("did:trustbloc:example.com:abc123".toList,
              "did:trustbloc:example.com:abc123#key1".toList),
         [.vdrResolve "did:trustbloc:ledgerA:abc123".toList])
    ∧ "did:trustbloc:example.com:abc123#key1".toList
      ≠ "did:trustbloc:ledgerA:abc123#key1".toList := by
  decide

/-- C5 (amended): adoption without a private key (no registrar URL, non-empty
`didID`, empty `privateKey`), for every `keyID` and every document `didID`
resolves to: `CreateDID` succeeds with the document's identifier and `keyID`
passed through the domain rewriter; its only collaborator call is `Resolve`, so
it makes no key-manager call; and the returned key id is `keyID` itself when
`keyID` does not contain the document's identifier. -/
theorem CreateDID_adoption_without_private_key (P : Pkgs) (o : CommonDID)
    (keyType signatureType didID keyID purpose : Str) (registrar : UNIRegistrar)
    (log : List Call) (docResolution : DocResolution)
    (hreg : registrar.DriverURL = []) (hdid : didID ≠ [])
    (hres : o.vdr.Resolve log didID = .ok docResolution) :
    CreateDID P o keyType signatureType didID [] keyID purpose registrar log
      = (.ok (replaceCanonicalDIDWithDomainDID o.domain docResolution.DIDDocument.ID keyID),
         log ++ [.vdrResolve didID])
    ∧ (strings.Contains keyID docResolution.DIDDocument.ID = false →
        (replaceCanonicalDIDWithDomainDID o.domain docResolution.DIDDocument.ID keyID).2
          = keyID) := by
  refine ⟨?_, rewrite_snd_of_not_Contains _ _ _⟩
  unfold CreateDID
  rw [if_neg (by simp [hreg]), if_neg hdid]
  simp only [M.wrapError, Registry.resolve, M.call, hres, bind_apply, pure_apply, ne_eq,
    not_true_eq_false, if_false]

/-- Adoption of `did:v1:test:xyz` without a private key on the sample engine. -/
theorem CreateDID_adoption_without_private_key_witness :
    CreateDID samplePkgs sampleDID "P256".toList "JsonWebSignature2020".toList
        "did:v1:test:xyz".toList [] "did:v1:test:xyz#key1".toList [] noRegistrar []
      = (.ok ("did:v1:test:xyz".toList, "did:v1:test:xyz#key1".toList),
         [.vdrResolve "did:v1:test:xyz".toList]) :=
  (CreateDID_adoption_without_private_key samplePkgs sampleDID "P256".toList
    "JsonWebSignature2020".toList "did:v1:test:xyz".toList "did:v1:test:xyz#key1".toList []
    noRegistrar [] { DIDDocument := { ID := "did:v1:test:xyz".toList } }
    rfl (by decide) rfl).1

/-! ## Unsupported pairs of key type and signature type -/

theorem Fails_fail {α : Type} (e : Error) : M.Fails (M.fail e : M α) :=
  fun _ => ⟨e, rfl⟩

theorem Fails_wrapError {α : Type} (f : Error → Error) (m : M α) (hm : M.Fails m) :
    M.Fails (M.wrapError f m) := by
  intro log
  obtain ⟨e, he⟩ := hm log
  unfold M.wrapError
  rcases hr : m log with ⟨r, log1⟩
  rw [hr] at he
  cases r with
  | ok a => cases he
  | error e0 => exact ⟨f e0, rfl⟩
  | panic => cases he

theorem Fails_bind_left {α β : Type} (m : M α) (f : α → M β) (hm : M.Fails m) :
    M.Fails (m >>= f) := by
  intro log
  obtain ⟨e, he⟩ := hm log
  rw [bind_apply]
  rcases hr : m log with ⟨r, log1⟩
  rw [hr] at he
  cases r with
  | ok a => cases he
  | error e0 => exact ⟨e0, rfl⟩
  | panic => cases he

theorem Fails_bind_right {α β : Type} (m : M α) (f : α → M β) (hm : M.NoPanic m)
    (hf : ∀ a, M.Fails (f a)) : M.Fails (m >>= f) := by
  intro log
  have hnp := hm log
  rw [bind_apply]
  rcases hr : m log with ⟨r, log1⟩
  rw [hr] at hnp
  cases r with
  | ok a => exact hf a log1
  | error e0 => exact ⟨e0, rfl⟩
  | panic => exact absurd rfl hnp

theorem NoPanic_call {α : Type} (c : Call) (response : List Call → Except Str α) :
    M.NoPanic (M.call c response) := by
  intro log
  unfold M.call
  cases response log <;> simp

theorem NoPanic_ofExcept {α : Type} (r : Except Str α) : M.NoPanic (M.ofExcept r) := by
  intro log
  cases r <;> simp [M.ofExcept, M.pure, M.fail]

theorem NoPanic_createKey (kt : KeyType) (km : KeyManager) : M.NoPanic (createKey kt km) := by
  intro log
  unfold createKey
  simp only [bind_apply, KeyManager.create, KeyManager.exportPubKeyBytes, M.call]
  cases km.Create log kt with
  | error e => simp
  | ok keyID =>
    simp only
    cases km.ExportPubKeyBytes (log ++ [Call.kmCreate kt]) keyID <;> simp

/-- With key type P256 and signature type Ed25519Signature2018 the key selector
fails: with the error of a key creation, or with the no-key-found error. -/
theorem createPublicKeys_Fails (P : Pkgs) (o : CommonDID) (hP : P.ConstsOK)
    (ho : ∀ kt km, M.NoPanic (o.createKey kt km)) :
    M.Fails (createPublicKeys P o P.P256KeyType P.Ed25519Signature2018) := by
  have h1 : ¬ (P.P256KeyType = P.Ed25519KeyType ∧ P.docEd25519VerificationKey2018
      = mapIndex (signatureKeyTypeMap P) P.Ed25519Signature2018) :=
    fun h => hP.keyType_ne h.1.symm
  have h2 : ¬ (P.P256KeyType = P.Ed25519KeyType ∧ P.docJWSVerificationKey2020
      = mapIndex (signatureKeyTypeMap P) P.Ed25519Signature2018) :=
    fun h => hP.keyType_ne h.1.symm
  have h3 : ¬ (P.P256KeyType = P.P256KeyType ∧ P.docJWSVerificationKey2020
      = mapIndex (signatureKeyTypeMap P) P.Ed25519Signature2018) :=
    fun h => hP.sig_ne ((jwsVK_eq_mapIndex P hP _).1 h.2)
  unfold createPublicKeys
  repeat (first
    | exact ho _ _
    | exact NoPanic_ofExcept _
    | (rw [if_neg h1, if_neg h2, if_neg h3]; exact Fails_fail _)
    | refine Fails_bind_right _ _ ?_ (fun _ => ?_)
    | split)

/-- C6 (as stated, refuted): the adoption strategy succeeds with key type P256
and signature type Ed25519Signature2018. -/
theorem adoption_ignores_key_pair :
    CreateDID samplePkgs sampleDID "P256".toList "Ed25519Signature2018".toList
        "did:v1:test:xyz".toList [] "did:v1:test:xyz#key1".toList [] noRegistrar []
      = (.ok ("did:v1:test:xyz".toList, "did:v1:test:xyz#key1".toList),
         [.vdrResolve "did:v1:test:xyz".toList]) := by
  decide

/-- C6 (amended): with key type P256 and signature type Ed25519Signature2018,
`CreateDID` returns an error in the registrar strategy and in the new-creation
strategy, whatever the collaborators return. -/
theorem CreateDID_unsupported_pair (P : Pkgs) (client : UniRegistrarClient) (config : Config)
    (didID privateKey keyID purpose : Str) (registrar : UNIRegistrar) (log : List Call)
    (hP : P.ConstsOK) (hstrategy : registrar.DriverURL ≠ [] ∨ didID = []) :
    ∃ e, (CreateDID P (New client config) P.P256KeyType P.Ed25519Signature2018 didID privateKey
      keyID purpose registrar log).1 = .error e := by
  have hkeys : M.Fails (M.wrapError Error.createPublicKeyFailed
      (createPublicKeys P (New client config) P.P256KeyType P.Ed25519Signature2018)) :=
    Fails_wrapError _ _ (createPublicKeys_Fails P _ hP (fun kt km => NoPanic_createKey kt km))
  have hall : M.Fails (CreateDID P (New client config) P.P256KeyType P.Ed25519Signature2018
      didID privateKey keyID purpose registrar) := by
    unfold CreateDID
    by_cases hurl : registrar.DriverURL ≠ []
    · rw [if_pos hurl]
      apply Fails_bind_left
      unfold createDIDUniRegistrar
      exact Fails_bind_left _ _ hkeys
    · have hdid : didID = [] := hstrategy.resolve_left hurl
      rw [if_neg hurl, if_pos hdid]
      apply Fails_bind_left
      unfold createDID
      exact Fails_bind_left _ _ hkeys
  exact hall log

/-- New creation with (P256, Ed25519Signature2018) fails on the sample engine. -/
theorem CreateDID_unsupported_pair_witness :
    ∃ e, (CreateDID samplePkgs sampleDID "P256".toList "Ed25519Signature2018".toList [] [] [] []
      noRegistrar []).1 = .error e :=
  CreateDID_unsupported_pair samplePkgs _ sampleConfig [] [] [] [] noRegistrar []
    samplePkgs_ConstsOK (Or.inr rfl)

/-! ## The adoption strategy with a private key -/

/-- The pieces of `d#keyA` when neither part contains `#`. -/
theorem Split_fragment (d keyA : Str) (hd : '#' ∉ d) (hA : '#' ∉ keyA) :
    strings.Split (d ++ '#' :: keyA) '#' = [d, keyA] := by
  rw [Split_append_sep _ _ _ hd, Split_no_sep _ _ hA]

/-- What `importKey` does with an Ed25519 key whose identifier has a second
`#`-piece: one `ImportPrivateKey` call under that piece. -/
theorem importKey_of_fragment (o : CommonDID) (keyID fragment : Str) (priv : Bytes)
    (log : List Call) (h : (strings.Split keyID '#')[1]? = some fragment) :
    importKey o keyID .ED25519Type priv log
      = (match o.keyManager.ImportPrivateKey log priv .ED25519Type fragment with
        | .ok _ => (.ok (), log ++ [.kmImportPrivateKey priv .ED25519Type fragment])
        | .error e =>
          (.error (.importFailed (.external e)),
           log ++ [.kmImportPrivateKey priv .ED25519Type fragment])) := by
  unfold importKey
  simp only [h, bind_apply, M.wrapError, KeyManager.importPrivateKey, M.call]
  cases o.keyManager.ImportPrivateKey log priv .ED25519Type fragment <;> rfl

/-- C7 (as stated, refuted): adoption of `did:trustbloc:ledgerA:abc123` with a
private key and key id `did:trustbloc:ledgerA:abc123#keyA`, domain
`example.com`: the import succeeds and the returned key id is not the caller's
key id. -/
theorem adoption_import_rewrites_keyID :
    CreateDID samplePkgs sampleDID "Ed25519".toList "Ed25519Signature2018".toList
        "did:trustbloc:ledgerA:abc123".toList "abc".toList
        "did:trustbloc:ledgerA:abc123#keyA".toList [] noRegistrar []
      = (.ok ("did:trustbloc:example.com:abc123".toList,
              "did:trustbloc:example.com:abc123#keyA".toList),
         [.vdrResolve "did:trustbloc:ledgerA:abc123".toList,
          .kmImportPrivateKey (samplePkgs.base58Decode "abc".toList) .ED25519Type
            "keyA".toList])
    ∧ "did:trustbloc:example.com:abc123#keyA".toList
      ≠ "did:trustbloc:ledgerA:abc123#keyA".toList := by
  decide

/-- C7 (amended): adoption with a private key (no registrar URL, non-empty
`didID` that resolves, non-empty `privateKey`) and a key id `d#keyA` with no
`#` inside `d` or `keyA`: after `Resolve`, `CreateDID` calls `ImportPrivateKey`
once, with the base58-decoded private key, key type Ed25519 and key id `keyA`,
and makes no other call; when the import succeeds it returns the document's
identifier and the key id passed through the domain rewriter; when the import
fails the whole call fails. -/
theorem CreateDID_adoption_with_private_key (P : Pkgs) (o : CommonDID)
    (keyType signatureType didID privateKey d keyA purpose : Str) (registrar : UNIRegistrar)
    (log : List Call) (docResolution : DocResolution)
    (hreg : registrar.DriverURL = []) (hdid : didID ≠ []) (hpriv : privateKey ≠ [])
    (hd : '#' ∉ d) (hA : '#' ∉ keyA)
    (hres : o.vdr.Resolve log didID = .ok docResolution) :
    CreateDID P o keyType signatureType didID privateKey (d ++ '#' :: keyA) purpose registrar log
      = (match o.keyManager.ImportPrivateKey (log ++ [.vdrResolve didID])
            (P.base58Decode privateKey) .ED25519Type keyA with
        | .ok _ =>
          (.ok (replaceCanonicalDIDWithDomainDID o.domain docResolution.DIDDocument.ID
                  (d ++ '#' :: keyA)),
           log ++ [.vdrResolve didID,
                   .kmImportPrivateKey (P.base58Decode privateKey) .ED25519Type keyA])
        | .error e =>
          (.error (.importFailed (.external e)),
           log ++ [.vdrResolve didID,
                   .kmImportPrivateKey (P.base58Decode privateKey) .ED25519Type keyA])) := by
  unfold CreateDID
  rw [if_neg (by simp [hreg]), if_neg hdid]
  have hfragment : (strings.Split (d ++ '#' :: keyA) '#')[1]? = some keyA := by
    rw [Split_fragment d keyA hd hA]
    rfl
  simp only [M.wrapError, Registry.resolve, M.call, hres, bind_apply, pure_apply, ne_eq, hpriv,
    not_false_eq_true, if_true, importKey_of_fragment o _ keyA _ _ hfragment]
  cases o.keyManager.ImportPrivateKey (log ++ [.vdrResolve didID])
    (P.base58Decode privateKey) .ED25519Type keyA <;> simp

/-- Adoption of `did:v1:test:xyz` with a private key on the sample engine. -/
theorem CreateDID_adoption_with_private_key_witness :
    CreateDID samplePkgs sampleDID "Ed25519".toList "Ed25519Signature2018".toList
        "did:v1:test:xyz".toList "abc".toList "did:v1:test:xyz#keyA".toList [] noRegistrar []
      = (.ok ("did:v1:test:xyz".toList, "did:v1:test:xyz#keyA".toList),
         [.vdrResolve "did:v1:test:xyz".toList,
          .kmImportPrivateKey (samplePkgs.base58Decode "abc".toList) .ED25519Type
            "keyA".toList]) :=
  CreateDID_adoption_with_private_key samplePkgs sampleDID "Ed25519".toList
    "Ed25519Signature2018".toList "did:v1:test:xyz".toList "abc".toList "did:v1:test:xyz".toList
    "keyA".toList [] noRegistrar [] { DIDDocument := { ID := "did:v1:test:xyz".toList } }
    rfl (by decide) (by decide) (by decide) (by decide) rfl

/-! ## The registrar strategy -/

/-- The registrar strategy up to the registrar's reply: when the keys are built,
the recovery and update keys are created and the registrar answers, what is left
is the handling of the reply. -/
theorem createDIDUniRegistrar_reply (P : Pkgs) (o : CommonDID)
    (keyType signatureType purpose : Str) (registrar : UNIRegistrar)
    (log0 log1 log2 log3 : List Call) (didDoc : Doc) (pks : List PublicKey)
    (selectedKeyID recID updID identifier : Str) (recoveryPubKey updatePubKey : Bytes)
    (keys : List Key)
    (hkeys : createPublicKeys P o keyType signatureType log0
      = (.ok (didDoc, pks, selectedKeyID), log1))
    (hrec : o.createKey .ED25519Type o.keyManager log1 = (.ok (recID, recoveryPubKey), log2))
    (hupd : o.createKey .ED25519Type o.keyManager log2 = (.ok (updID, updatePubKey), log3))
    (hreply : o.uniRegistrarClient.CreateDID log3 registrar.DriverURL
      (createCreateDIDOptions P pks recoveryPubKey updatePubKey registrar)
      = .ok (identifier, keys)) :
    createDIDUniRegistrar P o keyType signatureType purpose registrar log0
      = ((if strings.Contains identifier "did:trustbloc".toList then
          match keys.find? (fun (v : Key) => strings.Contains v.ID ('#' :: selectedKeyID)) with
          | some v => pure (identifier, v.ID)
          | none => M.fail (Error.selectedKeyNotFound selectedKeyID)
        else if strings.Contains identifier "did:v1".toList then
          match keys.find? (fun (v : Key) => v.Purposes.any (fun p => decide (purpose = p))) with
          | some v => do
            importKey o v.ID .ED25519Type (P.base58Decode v.PrivateKeyBase58)
            pure (identifier, v.ID)
          | none => M.fail (Error.noKeyWithPurpose purpose)
        else
          match keys[0]? with
          | none => M.panic
          | some key0 => do
            importKey o key0.ID .ED25519Type (P.base58Decode key0.PrivateKeyBase58)
            pure (identifier, key0.ID)) : M (Str × Str))
        (log3 ++ [Call.registrarCreateDID registrar.DriverURL
          (createCreateDIDOptions P pks recoveryPubKey updatePubKey registrar)]) := by
  unfold createDIDUniRegistrar
  simp only [bind_apply, M.wrapError, hkeys, hrec, hupd, UniRegistrarClient.createDID, M.call,
    hreply]

/-- C8 (as stated, refuted): the key selector chooses `kx`, the registrar
returns a `did:trustbloc` identifier and one key, whose fragment is `kxy`, not
`kx`; the registrar strategy succeeds with that key. -/
theorem registrar_accepts_longer_fragment :
    (∃ didDoc pks log1,
      createPublicKeys samplePkgs
        (New (sampleRegistrarClient "did:trustbloc:testnet:abc".toList
          [{ ID := "did:trustbloc:testnet:abc#kxy".toList, Purposes := [],
             PrivateKeyBase58 := [] }]) sampleConfig)
        "Ed25519".toList "Ed25519Signature2018".toList []
        = (.ok (didDoc, pks, "kx".toList), log1))
    ∧ (strings.Split "did:trustbloc:testnet:abc#kxy".toList '#')[1]? = some "kxy".toList
    ∧ "kxy".toList ≠ "kx".toList
    ∧ (createDIDUniRegistrar samplePkgs
        (New (sampleRegistrarClient "did:trustbloc:testnet:abc".toList
          [{ ID := "did:trustbloc:testnet:abc#kxy".toList, Purposes := [],
             PrivateKeyBase58 := [] }]) sampleConfig)
        "Ed25519".toList "Ed25519Signature2018".toList [] sampleRegistrar []).1
      = .ok ("did:trustbloc:testnet:abc".toList, "did:trustbloc:testnet:abc#kxy".toList) := by
  refine ⟨⟨_, _, _, rfl⟩, by decide, by decide, by decide⟩

/-- C8 (amended): when the registrar returns an identifier that contains
`did:trustbloc` and a key list, `createDIDUniRegistrar` succeeds exactly when
the identifier of some returned key contains `#` followed by the selected key
id; it then returns the registrar identifier and the identifier of the first
such key, and makes no call after the registrar call (no key is imported); when
no returned key identifier contains it, the call fails with the
selected-key-not-found error. -/
theorem createDIDUniRegistrar_trustbloc (P : Pkgs) (o : CommonDID)
    (keyType signatureType purpose : Str) (registrar : UNIRegistrar)
    (log0 log1 log2 log3 : List Call) (didDoc : Doc) (pks : List PublicKey)
    (selectedKeyID recID updID identifier : Str) (recoveryPubKey updatePubKey : Bytes)
    (keys : List Key)
    (hkeys : createPublicKeys P o keyType signatureType log0
      = (.ok (didDoc, pks, selectedKeyID), log1))
    (hrec : o.createKey .ED25519Type o.keyManager log1 = (.ok (recID, recoveryPubKey), log2))
    (hupd : o.createKey .ED25519Type o.keyManager log2 = (.ok (updID, updatePubKey), log3))
    (hreply : o.uniRegistrarClient.CreateDID log3 registrar.DriverURL
      (createCreateDIDOptions P pks recoveryPubKey updatePubKey registrar)
      = .ok (identifier, keys))
    (htb : strings.Contains identifier "did:trustbloc".toList = true) :
    createDIDUniRegistrar P o keyType signatureType purpose registrar log0
      = (match keys.find? (fun (v : Key) => strings.Contains v.ID ('#' :: selectedKeyID)) with
        | some v =>
          (.ok (identifier, v.ID),
           log3 ++ [.registrarCreateDID registrar.DriverURL
             (createCreateDIDOptions P pks recoveryPubKey updatePubKey registrar)])
        | none =>
          (.error (.selectedKeyNotFound selectedKeyID),
           log3 ++ [.registrarCreateDID registrar.DriverURL
             (createCreateDIDOptions P pks recoveryPubKey updatePubKey registrar)]))
    ∧ ((∃ r, (createDIDUniRegistrar P o keyType signatureType purpose registrar log0).1 = .ok r)
        ↔ ∃ v ∈ keys, strings.Contains v.ID ('#' :: selectedKeyID) = true) := by
  have heq := createDIDUniRegistrar_reply P o keyType signatureType purpose registrar log0 log1
    log2 log3 didDoc pks selectedKeyID recID updID identifier recoveryPubKey updatePubKey keys
    hkeys hrec hupd hreply
  rw [if_pos htb] at heq
  rw [heq]
  cases hfind : keys.find? (fun (v : Key) => strings.Contains v.ID ('#' :: selectedKeyID)) with
  | none =>
    refine ⟨rfl, ?_⟩
    constructor
    · rintro ⟨r, hr⟩
      cases hr
    · rintro ⟨v, hv, hc⟩
      have := List.find?_eq_none.1 hfind v hv
      exact absurd hc this
  | some v =>
    refine ⟨rfl, ?_⟩
    constructor
    · intro _
      have hv : strings.Contains v.ID ('#' :: selectedKeyID) = true := by
        simpa using List.find?_some hfind
      exact ⟨v, List.mem_of_find?_eq_some hfind, hv⟩
    · intro _
      exact ⟨_, rfl⟩

/-- The sample registrar returns the key `kx` the selector chose. -/
theorem createDIDUniRegistrar_trustbloc_witness :
    (createDIDUniRegistrar samplePkgs sampleDID "Ed25519".toList "Ed25519Signature2018".toList
      [] sampleRegistrar []).1
      = .ok ("did:trustbloc:testnet:abc".toList, "did:trustbloc:testnet:abc#kx".toList) := by
  rw [(createDIDUniRegistrar_trustbloc samplePkgs sampleDID "Ed25519".toList
    "Ed25519Signature2018".toList [] sampleRegistrar [] _ _ _ _ _ "kx".toList _ _
    "did:trustbloc:testnet:abc".toList _ _ sampleKeys rfl rfl rfl rfl (by decide)).1]
  rfl

/-- The three ways `importKey` can end for an Ed25519 key. -/
theorem importKey_outcome (o : CommonDID) (keyID : Str) (priv : Bytes) (log : List Call) :
    (importKey o keyID .ED25519Type priv log).1 = .panic
    ∨ (∃ e, (importKey o keyID .ED25519Type priv log).1 = .error (.importFailed e))
    ∨ (importKey o keyID .ED25519Type priv log).1 = .ok () := by
  cases hsplit : (strings.Split keyID '#')[1]? with
  | none =>
    left
    unfold importKey
    simp only [hsplit]
    rfl
  | some fragment =>
    right
    rw [importKey_of_fragment o keyID fragment priv log hsplit]
    cases o.keyManager.ImportPrivateKey log priv .ED25519Type fragment with
    | error e => exact Or.inl ⟨_, rfl⟩
    | ok a => exact Or.inr rfl

/-- C9 (as stated, refuted): the registrar returns a `did:v1` identifier and a
key for the requested purpose, the key manager refuses the import: the registrar
strategy does not return the identifier and the key id, it fails with the import
error. -/
theorem registrar_v1_import_refused :
    refusingDID.uniRegistrarClient.CreateDID [] [] []
      = .ok ("did:v1:test:xyz".toList,
          [{ ID := "did:v1:test:xyz#key1".toList, Purposes := ["assertionMethod".toList],
             PrivateKeyBase58 := "abc".toList }])
    ∧ (createDIDUniRegistrar samplePkgs refusingDID "Ed25519".toList
        "Ed25519Signature2018".toList "assertionMethod".toList sampleRegistrar []).1
      = .error (.importFailed (.external "import refused".toList)) :=
  ⟨rfl, by decide⟩

/-- C9 (amended): when the registrar returns an identifier that contains
`did:v1` and not `did:trustbloc`, `createDIDUniRegistrar` fails with the
no-key-for-purpose error if and only if no returned key has the requested
purpose in its purpose list. Otherwise the key it works with is `v`, the first
returned key (in list order) that has the requested purpose, chosen by the
purpose alone. When the identifier of `v` has a `#`, `ImportPrivateKey` is
called once with the base58-decoded private key of `v`, key type Ed25519 and the
text of the identifier after its first `#` (up to the next `#`), and the call
returns the registrar identifier with the identifier of `v` when the import
succeeds, the import error when it fails. The statement is silent on a `v`
whose identifier has no `#`. -/
theorem createDIDUniRegistrar_v1 (P : Pkgs) (o : CommonDID)
    (keyType signatureType purpose : Str) (registrar : UNIRegistrar)
    (log0 log1 log2 log3 : List Call) (didDoc : Doc) (pks : List PublicKey)
    (selectedKeyID recID updID identifier : Str) (recoveryPubKey updatePubKey : Bytes)
    (keys : List Key)
    (hkeys : createPublicKeys P o keyType signatureType log0
      = (.ok (didDoc, pks, selectedKeyID), log1))
    (hrec : o.createKey .ED25519Type o.keyManager log1 = (.ok (recID, recoveryPubKey), log2))
    (hupd : o.createKey .ED25519Type o.keyManager log2 = (.ok (updID, updatePubKey), log3))
    (hreply : o.uniRegistrarClient.CreateDID log3 registrar.DriverURL
      (createCreateDIDOptions P pks recoveryPubKey updatePubKey registrar)
      = .ok (identifier, keys))
    (htb : strings.Contains identifier "did:trustbloc".toList = false)
    (hv1 : strings.Contains identifier "did:v1".toList = true) :
    ((createDIDUniRegistrar P o keyType signatureType purpose registrar log0).1
        = .error (.noKeyWithPurpose purpose)
      ↔ ∀ v ∈ keys, purpose ∉ v.Purposes)
    ∧ ∀ (v : Key) (fragment : Str),
        keys.find? (fun (u : Key) => u.Purposes.any (fun p => decide (purpose = p))) = some v →
        (strings.Split v.ID '#')[1]? = some fragment →
        createDIDUniRegistrar P o keyType signatureType purpose registrar log0
          = (match o.keyManager.ImportPrivateKey
                (log3 ++ [.registrarCreateDID registrar.DriverURL
                  (createCreateDIDOptions P pks recoveryPubKey updatePubKey registrar)])
                (P.base58Decode v.PrivateKeyBase58) .ED25519Type fragment with
            | .ok _ =>
              (.ok (identifier, v.ID),
               log3 ++ [.registrarCreateDID registrar.DriverURL
                          (createCreateDIDOptions P pks recoveryPubKey updatePubKey registrar),
                        .kmImportPrivateKey (P.base58Decode v.PrivateKeyBase58) .ED25519Type
                          fragment])
            | .error e =>
              (.error (.importFailed (.external e)),
               log3 ++ [.registrarCreateDID registrar.DriverURL
                          (createCreateDIDOptions P pks recoveryPubKey updatePubKey registrar),
                        .kmImportPrivateKey (P.base58Decode v.PrivateKeyBase58) .ED25519Type
                          fragment])) := by
  have heq := createDIDUniRegistrar_reply P o keyType signatureType purpose registrar log0 log1
    log2 log3 didDoc pks selectedKeyID recID updID identifier recoveryPubKey updatePubKey keys
    hkeys hrec hupd hreply
  rw [if_neg (by rw [htb]; decide), if_pos hv1] at heq
  rw [heq]
  constructor
  · cases hfind : keys.find? (fun (u : Key) => u.Purposes.any (fun p => decide (purpose = p))) with
    | none =>
      constructor
      · intro _ v hv hp
        have := List.find?_eq_none.1 hfind v hv
        exact this (by simpa using hp)
      · intro _
        rfl
    | some v =>
      have hv : v.Purposes.any (fun p => decide (purpose = p)) = true := by
        simpa using List.find?_some hfind
      constructor
      · intro herr
        exfalso
        simp only [bind_apply] at herr
        rcases importKey_outcome o v.ID (P.base58Decode v.PrivateKeyBase58)
          (log3 ++ [.registrarCreateDID registrar.DriverURL
            (createCreateDIDOptions P pks recoveryPubKey updatePubKey registrar)])
          with h | ⟨e, h⟩ | h
        all_goals
          rcases hr : importKey o v.ID .ED25519Type (P.base58Decode v.PrivateKeyBase58)
            (log3 ++ [.registrarCreateDID registrar.DriverURL
              (createCreateDIDOptions P pks recoveryPubKey updatePubKey registrar)])
            with ⟨r, logr⟩
          rw [hr] at h herr
          simp only at h
          subst h
          simp at herr
      · intro hall
        exact absurd (by simpa using hv) (hall v (List.mem_of_find?_eq_some hfind))
  · intro v fragment hfind hfragment
    rw [hfind]
    simp only [bind_apply, importKey_of_fragment o v.ID fragment _ _ hfragment]
    cases o.keyManager.ImportPrivateKey
      (log3 ++ [.registrarCreateDID registrar.DriverURL
        (createCreateDIDOptions P pks recoveryPubKey updatePubKey registrar)])
      (P.base58Decode v.PrivateKeyBase58) .ED25519Type fragment <;> simp

/-- The second `did:v1` key is the first one for `assertionMethod`. -/
theorem createDIDUniRegistrar_v1_witness :
    (createDIDUniRegistrar samplePkgs sampleV1DID "Ed25519".toList "Ed25519Signature2018".toList
      "assertionMethod".toList sampleRegistrar []).1
      = .ok ("did:v1:test:xyz".toList, "did:v1:test:xyz#key2".toList) := by
  rw [(createDIDUniRegistrar_v1 samplePkgs sampleV1DID "Ed25519".toList
    "Ed25519Signature2018".toList "assertionMethod".toList sampleRegistrar [] _ _ _ _ _
    "kx".toList _ _ "did:v1:test:xyz".toList _ _ _ rfl rfl rfl rfl (by decide) (by decide)).2
    { ID := "did:v1:test:xyz#key2".toList,
      Purposes := ["authentication".toList, "assertionMethod".toList],
      PrivateKeyBase58 := "def".toList }
    "key2".toList rfl rfl]
  rfl

/-! ## The form of the returned key identifier -/

/-- A string that starts with `did:trustbloc` starts with `d`. -/
theorem HasPrefix_trustbloc_cons (didID : Str)
    (h : strings.HasPrefix didID "did:trustbloc".toList = true) : ∃ t, didID = 'd' :: t := by
  cases didID with
  | nil => exact absurd h (by decide)
  | cons c t =>
    have hc : c = 'd' := by
      rw [trustbloc_chars] at h
      simp only [strings.HasPrefix, List.isPrefixOf, Bool.and_eq_true, beq_iff_eq] at h
      exact h.1.symm
    exact ⟨t, by rw [hc]⟩

/-- The rewriter keeps a key identifier of the form `didID#fragment` in that form. -/
theorem rewrite_fragment_qualified (domain didID fragment : Str) :
    ∃ fragment1,
      (replaceCanonicalDIDWithDomainDID domain didID (didID ++ '#' :: fragment)).2
        = (replaceCanonicalDIDWithDomainDID domain didID (didID ++ '#' :: fragment)).1
            ++ '#' :: fragment1 := by
  unfold replaceCanonicalDIDWithDomainDID
  dsimp only
  split
  · rename_i hpre
    obtain ⟨t, ht⟩ := HasPrefix_trustbloc_cons didID hpre
    have hne : didID ≠ [] := by rw [ht]; simp
    split
    · split
      · rename_i s0 s1 s2 s3 _
        refine ⟨strings.replaceScan didID (s0 ++ ':' :: (s1 ++ ':' :: (domain ++ ':' :: s3))) 0
          fragment, ?_⟩
        simp only [strings.ReplaceAll, if_neg hne]
        rw [replaceScan_occurrence _ _ _ hne]
        congr 1
        conv_lhs => rw [ht]
        rw [replaceScan_other _ _ _ _ _ (by decide), ← ht]
      · exact ⟨fragment, rfl⟩
    · exact ⟨fragment, rfl⟩
  · exact ⟨fragment, rfl⟩

/-- A successful `createDID` returns the document identifier and that identifier
followed by `#` and the selected key id. -/
theorem createDID_ok_form (P : Pkgs) (o : CommonDID) (keyType signatureType : Str)
    (log log1 : List Call) (createdDIDID publicKeyID : Str)
    (h : createDID P o keyType signatureType log = (.ok (createdDIDID, publicKeyID), log1)) :
    ∃ selectedKeyID, publicKeyID = createdDIDID ++ '#' :: selectedKeyID := by
  unfold createDID at h
  simp only [bind_apply, pure_apply] at h
  repeat (any_goals (split at h))
  all_goals (cases h)
  exact ⟨_, rfl⟩

/-- C10 (as stated, refuted): the adoption strategy with the key id `key1`
succeeds, and the returned key id does not start with the returned DID followed
by `#`; so does the registrar strategy when the registrar returns the key id
`other#kx`. -/
theorem unqualified_keyID_returned :
    (CreateDID samplePkgs sampleDID "Ed25519".toList "Ed25519Signature2018".toList
        "did:v1:test:xyz".toList [] "key1".toList [] noRegistrar []
      = (.ok ("did:v1:test:xyz".toList, "key1".toList), [.vdrResolve "did:v1:test:xyz".toList])
    ∧ strings.HasPrefix "key1".toList ("did:v1:test:xyz".toList ++ ['#']) = false)
    ∧ ((CreateDID samplePkgs
          (New (sampleRegistrarClient "did:trustbloc:testnet:abc".toList
            [{ ID := "other#kx".toList, Purposes := [], PrivateKeyBase58 := [] }]) sampleConfig)
          "Ed25519".toList "Ed25519Signature2018".toList [] [] [] [] sampleRegistrar []).1
        = .ok ("did:trustbloc:example.com:abc".toList, "other#kx".toList)
      ∧ strings.HasPrefix "other#kx".toList ("did:trustbloc:example.com:abc".toList ++ ['#'])
          = false) := by
  decide

/-- C10 (amended): for every successful `CreateDID` call in the new-creation
strategy (no registrar URL, empty `didID`), the returned key id is the returned
DID followed by `#` and a fragment. -/
theorem CreateDID_new_creation_fragment_qualified (P : Pkgs) (o : CommonDID)
    (keyType signatureType privateKey keyID purpose : Str) (registrar : UNIRegistrar)
    (log log1 : List Call) (createdDIDID publicKeyID : Str)
    (hreg : registrar.DriverURL = [])
    (hok : CreateDID P o keyType signatureType [] privateKey keyID purpose registrar log
      = (.ok (createdDIDID, publicKeyID), log1)) :
    ∃ fragment, publicKeyID = createdDIDID ++ '#' :: fragment := by
  unfold CreateDID at hok
  rw [if_neg (by simp [hreg]), if_pos rfl, bind_apply] at hok
  rcases hr : createDID P o keyType signatureType log with ⟨r, log2⟩
  rw [hr] at hok
  cases r with
  | error e => cases hok
  | panic => cases hok
  | ok r =>
    obtain ⟨a, b⟩ := r
    obtain ⟨selectedKeyID, hb⟩ := createDID_ok_form P o keyType signatureType log log2 a b hr
    subst hb
    obtain ⟨fragment, hf⟩ := rewrite_fragment_qualified o.domain a selectedKeyID
    simp only [pure_apply, Prod.mk.injEq, Outcome.ok.injEq] at hok
    refine ⟨fragment, ?_⟩
    rw [hok.1] at hf
    exact hf

/-- New creation on the sample engine returns a fragment-qualified key id. -/
theorem CreateDID_new_creation_fragment_qualified_witness :
    (CreateDID samplePkgs sampleDID "Ed25519".toList "JsonWebSignature2020".toList [] [] [] []
      noRegistrar []).1
      = .ok ("did:trustbloc:example.com:abc".toList, "did:trustbloc:example.com:abc#kxx".toList)
    ∧ ∃ fragment,
        "did:trustbloc:example.com:abc#kxx".toList
          = "did:trustbloc:example.com:abc".toList ++ '#' :: fragment :=
  ⟨by decide,
   CreateDID_new_creation_fragment_qualified samplePkgs sampleDID "Ed25519".toList
     "JsonWebSignature2020".toList [] [] [] noRegistrar [] _ _ _ rfl rfl⟩

/-! ## Replies and requests the code does not guard against -/

/-- A key identifier without `#` has no second piece, and `importKey` panics on
it before any call on the key manager. -/
theorem importKey_without_fragment (o : CommonDID) (keyID : Str) (priv : Bytes)
    (log : List Call) (h : '#' ∉ keyID) :
    importKey o keyID .ED25519Type priv log = (.panic, log) := by
  unfold importKey
  simp only [Split_no_sep keyID '#' h]
  rfl

/-- C11 (the code at the failing inputs): a registrar reply with an identifier
that is neither `did:trustbloc` nor `did:v1` and an empty key list makes
`createDIDUniRegistrar` panic (index 0 of the key list is out of range), and a
`did:v1` reply whose matching key has the identifier `key1`, without `#`, makes
it panic too (index 1 of the split identifier is out of range); in both cases
the last call made is the registrar call. -/
theorem createDIDUniRegistrar_panics :
    (emptyReplyDID.uniRegistrarClient.CreateDID [] [] [] = .ok ("did:example:123".toList, [])
      ∧ (createDIDUniRegistrar samplePkgs emptyReplyDID "Ed25519".toList
          "Ed25519Signature2018".toList [] sampleRegistrar []).1 = .panic)
    ∧ (noFragmentDID.uniRegistrarClient.CreateDID [] [] []
        = .ok ("did:v1:test:xyz".toList,
            [{ ID := "key1".toList, Purposes := ["assertionMethod".toList],
               PrivateKeyBase58 := "abc".toList }])
      ∧ (createDIDUniRegistrar samplePkgs noFragmentDID "Ed25519".toList
          "Ed25519Signature2018".toList "assertionMethod".toList sampleRegistrar []).1
        = .panic) :=
  ⟨⟨rfl, by decide⟩, ⟨rfl, by decide⟩⟩

/-- C12 (the code at the failing input): adoption of `did:v1:test:xyz` with the
private key `abc` and an empty key id: after `Resolve`, `CreateDID` panics in
`importKey` (index 1 of the split key id is out of range); it makes no
`ImportPrivateKey` call and returns nothing. -/
theorem adoption_empty_keyID_panics :
    CreateDID samplePkgs sampleDID "Ed25519".toList "Ed25519Signature2018".toList
        "did:v1:test:xyz".toList "abc".toList [] [] noRegistrar []
      = (.panic, [.vdrResolve "did:v1:test:xyz".toList]) := by
  decide

/-! ## Segment count and idempotence of the domain rewriter -/

/-- C13: for every `didID` whose number of `:`-separated segments is not four
and every `publicKeyID`, the rewriter returns both unchanged, for every
domain. -/
theorem rewrite_other_segment_count (domain didID publicKeyID : Str)
    (h : (strings.Split didID ':').length ≠ 4) :
    replaceCanonicalDIDWithDomainDID domain didID publicKeyID = (didID, publicKeyID) := by
  unfold replaceCanonicalDIDWithDomainDID
  split
  · dsimp only
    have h4 : ¬ (strings.Split didID ':').length = splitDidIDLength := h
    rw [if_neg h4]
  · rfl

/-- The rewriter leaves the three-segment `did:trustbloc:abc` and its key id
unchanged. -/
theorem rewrite_other_segment_count_witness :
    (strings.Split "did:trustbloc:abc".toList ':').length ≠ 4
    ∧ replaceCanonicalDIDWithDomainDID "example.com".toList "did:trustbloc:abc".toList
        "did:trustbloc:abc#key1".toList
      = ("did:trustbloc:abc".toList, "did:trustbloc:abc#key1".toList) :=
  ⟨by decide, rewrite_other_segment_count _ _ _ (by decide)⟩

/-- The pieces of a split do not contain the separator. -/
theorem Split_pieces_no_sep (s : Str) (sep : Char) :
    ∀ p ∈ strings.Split s sep, sep ∉ p := by
  induction s with
  | nil => simp [strings.Split]
  | cons c cs ih =>
    unfold strings.Split
    split
    · intro p hp
      rcases List.mem_cons.1 hp with hp | hp
      · rw [hp]; simp
      · exact ih p hp
    · rename_i hc
      split
      · intro p hp
        rw [List.mem_singleton.1 hp]
        simp [Ne.symm hc]
      · rename_i piece rest heq
        intro p hp
        rcases List.mem_cons.1 hp with hp | hp
        · have hpiece : sep ∉ piece := ih piece (by rw [heq]; simp)
          rw [hp]
          simp [Ne.symm hc, hpiece]
        · exact ih p (by rw [heq]; simp [hp])

/-- A split has one piece more than the string has separators. -/
theorem Split_length (s : Str) (sep : Char) :
    (strings.Split s sep).length = s.count sep + 1 := by
  induction s with
  | nil => simp [strings.Split]
  | cons c cs ih =>
    unfold strings.Split
    split
    · rename_i hc
      simp [hc, ih]
    · rename_i hc
      have hcount : (c :: cs).count sep = cs.count sep := by
        simp [List.count_cons, hc]
      split
      · rename_i heq
        exact absurd heq (Split_ne_nil cs sep)
      · rename_i piece rest heq
        rw [heq] at ih
        simp only [List.length_cons] at ih ⊢
        rw [hcount]
        exact ih

/-- A prefix without the separator stays in front of the first piece. -/
theorem Split_append_no_sep (a t : Str) (sep : Char) (ha : sep ∉ a) :
    ∃ piece rest, strings.Split t sep = piece :: rest
      ∧ strings.Split (a ++ t) sep = (a ++ piece) :: rest := by
  induction a with
  | nil =>
    cases hs : strings.Split t sep with
    | nil => exact absurd hs (Split_ne_nil t sep)
    | cons piece rest => exact ⟨piece, rest, rfl, by simpa using hs⟩
  | cons c cs ih =>
    have hc : c ≠ sep := fun h => ha (by simp [h])
    have hcs : sep ∉ cs := fun h => ha (by simp [h])
    obtain ⟨piece, rest, h1, h2⟩ := ih hcs
    refine ⟨piece, rest, h1, ?_⟩
    simp [strings.Split, hc, h2]

/-- Replacing a non-empty string by itself changes nothing. -/
theorem replaceScan_same (old : Str) (hold : old ≠ []) :
    ∀ (n : Nat) (s : Str), s.length ≤ n → strings.replaceScan old old 0 s = s := by
  intro n
  induction n with
  | zero =>
    intro s hs
    have : s = [] := List.length_eq_zero.1 (Nat.le_zero.1 hs)
    rw [this]
    rfl
  | succ n ih =>
    intro s hs
    cases s with
    | nil => rfl
    | cons c cs =>
      by_cases hp : old.isPrefixOf (c :: cs) = true
      · obtain ⟨rest, hrest⟩ := List.isPrefixOf_iff_prefix.1 hp
        have hlen : rest.length ≤ n := by
          have h1 : (old ++ rest).length = (c :: cs).length := by rw [hrest]
          have h2 : 0 < old.length := List.length_pos.2 hold
          simp only [List.length_append, List.length_cons] at h1 hs
          omega
        rw [← hrest, replaceScan_occurrence _ _ _ hold, ih rest hlen]
      · have hcs : cs.length ≤ n := by
          simp only [List.length_cons] at hs
          omega
        rw [strings.replaceScan, if_neg hp, ih cs hcs]

/-- Without the prefix `did:trustbloc` the rewriter changes nothing. -/
theorem rewrite_unchanged_other_method (domain didID publicKeyID : Str)
    (h : ¬ strings.HasPrefix didID "did:trustbloc".toList = true) :
    replaceCanonicalDIDWithDomainDID domain didID publicKeyID = (didID, publicKeyID) := by
  unfold replaceCanonicalDIDWithDomainDID
  rw [if_neg h]

/-- With a segment count other than four the rewriter changes nothing. -/
theorem rewrite_unchanged_of_length (domain didID publicKeyID : Str)
    (h : ¬ (strings.Split didID ':').length = 4) :
    replaceCanonicalDIDWithDomainDID domain didID publicKeyID = (didID, publicKeyID) := by
  unfold replaceCanonicalDIDWithDomainDID
  split
  · dsimp only
    have h4 : ¬ (strings.Split didID ':').length = splitDidIDLength := h
    rw [if_neg h4]
  · rfl

/-- The rewriter on an identifier with the prefix and the four segments `s0`,
`s1`, `s2`, `s3`. -/
theorem rewrite_of_Split (domain didID publicKeyID s0 s1 s2 s3 : Str)
    (hpre : strings.HasPrefix didID "did:trustbloc".toList = true)
    (hsplit : strings.Split didID ':' = [s0, s1, s2, s3]) :
    replaceCanonicalDIDWithDomainDID domain didID publicKeyID
      = (s0 ++ ':' :: (s1 ++ ':' :: (domain ++ ':' :: s3)),
         strings.ReplaceAll publicKeyID didID
           (s0 ++ ':' :: (s1 ++ ':' :: (domain ++ ':' :: s3)))) := by
  unfold replaceCanonicalDIDWithDomainDID
  rw [if_pos hpre]
  simp only [hsplit, splitDidIDLength, List.length_cons, List.length_nil, if_true]

/-- The first two segments of an identifier with the prefix `did:trustbloc`
carry the prefix. -/
theorem HasPrefix_of_Split (didID s0 s1 s2 s3 rest : Str)
    (hpre : strings.HasPrefix didID "did:trustbloc".toList = true)
    (hsplit : strings.Split didID ':' = [s0, s1, s2, s3]) :
    strings.HasPrefix (s0 ++ ':' :: (s1 ++ rest)) "did:trustbloc".toList = true := by
  obtain ⟨t, ht⟩ := List.isPrefixOf_iff_prefix.1 hpre
  have h1 : "did:trustbloc".toList ++ t = "did".toList ++ ':' :: ("trustbloc".toList ++ t) := rfl
  obtain ⟨piece, tail, _, h3⟩ := Split_append_no_sep "trustbloc".toList t ':' (by decide)
  rw [← ht, h1, Split_append_sep _ _ _ (by decide), h3] at hsplit
  have hs0 : s0 = "did".toList := (List.cons.inj hsplit).1.symm
  have hs1 : s1 = "trustbloc".toList ++ piece :=
    (List.cons.inj (List.cons.inj hsplit).2).1.symm
  rw [hs0, hs1]
  have h2 : "did".toList ++ ':' :: ("trustbloc".toList ++ piece ++ rest)
      = "did:trustbloc".toList ++ (piece ++ rest) := by
    rw [List.append_assoc]
    rfl
  rw [h2]
  exact isPrefixOf_append_self _ _

/-- C14: the rewriter is idempotent for a fixed domain: for every `didID`,
`publicKeyID` and `domain` (empty, or with `:` in it, or any other), applying
the rewriter to its own output returns that output unchanged. -/
theorem rewrite_idempotent (domain didID publicKeyID : Str) :
    replaceCanonicalDIDWithDomainDID domain
        (replaceCanonicalDIDWithDomainDID domain didID publicKeyID).1
        (replaceCanonicalDIDWithDomainDID domain didID publicKeyID).2
      = replaceCanonicalDIDWithDomainDID domain didID publicKeyID := by
  by_cases hpre : strings.HasPrefix didID "did:trustbloc".toList = true
  · by_cases hlen : (strings.Split didID ':').length = 4
    · obtain ⟨s0, s1, s2, s3, hsplit⟩ :
          ∃ s0 s1 s2 s3, strings.Split didID ':' = [s0, s1, s2, s3] := by
        match hs : strings.Split didID ':', hlen with
        | [s0, s1, s2, s3], _ => exact ⟨s0, s1, s2, s3, rfl⟩
      have hmem := Split_pieces_no_sep didID ':'
      rw [hsplit] at hmem
      have h0 : ':' ∉ s0 := hmem s0 (by simp)
      have h1 : ':' ∉ s1 := hmem s1 (by simp)
      have h3 : ':' ∉ s3 := hmem s3 (by simp)
      rw [rewrite_of_Split domain didID publicKeyID s0 s1 s2 s3 hpre hsplit]
      dsimp only
      by_cases hD : ':' ∈ domain
      · apply rewrite_unchanged_of_length
        rw [Split_length]
        have hc : 0 < domain.count ':' := List.count_pos_iff.2 hD
        simp only [List.count_append, List.count_cons, List.count_eq_zero_of_not_mem h0,
          List.count_eq_zero_of_not_mem h1, List.count_eq_zero_of_not_mem h3, beq_self_eq_true,
          if_true]
        omega
      · have hsplit2 : strings.Split (s0 ++ ':' :: (s1 ++ ':' :: (domain ++ ':' :: s3))) ':'
            = [s0, s1, domain, s3] := by
          rw [Split_append_sep _ _ _ h0, Split_append_sep _ _ _ h1, Split_append_sep _ _ _ hD,
            Split_no_sep _ _ h3]
        have hpre2 := HasPrefix_of_Split didID s0 s1 s2 s3 (':' :: (domain ++ ':' :: s3))
          hpre hsplit
        have hne : s0 ++ ':' :: (s1 ++ ':' :: (domain ++ ':' :: s3)) ≠ [] := by simp
        rw [rewrite_of_Split domain _ _ s0 s1 domain s3 hpre2 hsplit2]
        congr 1
        unfold strings.ReplaceAll
        rw [if_neg hne]
        by_cases hdid : didID = []
        · rw [if_pos hdid]
          exact replaceScan_same _ hne _ _ (Nat.le_refl _)
        · rw [if_neg hdid]
          exact replaceScan_same _ hne _ _ (Nat.le_refl _)
    · rw [rewrite_unchanged_of_length domain didID publicKeyID hlen]
      exact rewrite_unchanged_of_length domain didID publicKeyID hlen
  · rw [rewrite_unchanged_other_method domain didID publicKeyID hpre]
    exact rewrite_unchanged_other_method domain didID publicKeyID hpre

end DID
